import Mathlib

/-!
xtenancy-svc, package `data`: the field-masked store

A shallow embedding of `src/data/error.go`, `src/data/model.go`,
`src/data/storeutil.go` and `src/data/store.go`.

The Go code talks to three collaborators that live outside the repository:
the SQL session (`dbr.Session` over PostgreSQL), the struct validator
(`validator.v9`) and the generators `uuid.New` / `time.Now`.  They are
modelled explicitly:

* the session is a record of tables, the statements the backend refuses and
  the log of the statements issued so far (`Session`);
* the validator runs the `validate:"..."` tags that `model.go` declares,
  with the format checkers of the library taken as parameters (`Validate`);
* fresh identifiers and the clock are arguments of the `Create*` operations.

Every Go function that returns `(T, error)` is a function into
`Option T × Option GoError` here (`none` is Go's `nil`), and every function
that touches `s.db` also returns the store it leaves behind.
-/

namespace Xtenancy

/-! ## Go values and errors -/

/-- An instant (`time.Time`); `0` stands for the zero time. -/
abbrev Time := Int

/-- The type `dbr.NullString`: a string that may be SQL `NULL`. -/
structure NullString where
  str : String
  valid : Bool
deriving DecidableEq, Repr

/-- The type `dbr.NullBool`. -/
structure NullBool where
  bool : Bool
  valid : Bool
deriving DecidableEq, Repr

/-- The type `dbr.NullTime`. -/
structure NullTime where
  time : Time
  valid : Bool
deriving DecidableEq, Repr

/-- One entry of `validator.ValidationErrors`: the struct, the field and the
tag that failed. -/
structure FieldError where
  struct : String
  field : String
  tag : String
deriving DecidableEq, Repr

/-- A non-nil Go `error` value.
* `errorString s` is `errors.New(s)`;
* `backend msg` is an error value produced by the driver or the database;
* `validation fes` is a `validator.ValidationErrors`;
* `dbError err msg` is `&Error{err, msg}` of `error.go` (only `NewDbError`
  builds one, and always around a non-nil `err`). -/
inductive GoError where
  | errorString (s : String)
  | backend (msg : String)
  | validation (fes : List FieldError)
  | dbError (Err : GoError) (Msg : String)
deriving DecidableEq, Repr

/-- The line `validator.v9` prints for one field error. -/
def FieldError.Error (fe : FieldError) : String :=
  "Key: \x27" ++ fe.struct ++ "." ++ fe.field ++ "\x27 Error:Field validation for \x27"
    ++ fe.field ++ "\x27 failed on the \x27" ++ fe.tag ++ "\x27 tag"

/-- The method `Error()` of an error value; for `Error` of `error.go` it is
`e.Msg`. -/
def GoError.Error : GoError → String
  | .errorString s => s
  | .backend msg => msg
  | .validation fes => "\n".intercalate (fes.map FieldError.Error)
  | .dbError _ Msg => Msg

/-- The function `errors.Unwrap`: the result of the value's `Unwrap` method
when it has one (only `Error` of `error.go` does), `nil` otherwise. -/
def errorsUnwrap : Option GoError → Option GoError
  | some (.dbError Err _) => some Err
  | _ => none

/-! ## error.go -/

def ErrResourceDNE : String := "resource does not exist"

def ErrEmptyFieldMask : String := "field mask is empty"

def ErrAlreadyMember : String := "user is already member of tenant"

def DbErrGroupUserAlreadyLinked : String :=
  "pq: duplicate key value violates unique constraint \"group_user_pkey\""

def ErrGroupUserAlreadyLinked : String := "group already linked to user"

def DbErrGroupOrUserDNE : String :=
  "pq: insert or update on table \"group_user\" violates foreign key constraint \"group_user_group_id_fkey\""

def ErrGroupOrUserDNE : String := "group or user does not exist"

def ErrUnknown : String := "unspecified database error"

/-- The helper `includes` of `storeutil.go`: linear search. -/
def includes : List String → String → Bool
  | [], _ => false
  | v :: rest, val => if v = val then true else includes rest val

def storeMessages : List String := [ErrEmptyFieldMask, ErrResourceDNE]

/-- The entries of the Go map literal `dbMessages`. -/
def dbMessages : List (String × String) :=
  [ (ErrResourceDNE, ErrResourceDNE),
    (DbErrGroupOrUserDNE, ErrGroupOrUserDNE),
    (DbErrGroupUserAlreadyLinked, ErrGroupUserAlreadyLinked) ]

/-- Indexing a Go `map[string]string`: the value stored under the key, the
zero value `""` when the key is absent. -/
def mapIndex : List (String × String) → String → String
  | [], _ => ""
  | (k, v) :: rest, key => if k = key then v else mapIndex rest key

/-- The function `NewDbError` of `error.go`. -/
def NewDbError : Option GoError → Option GoError
  | none => none
  | some err =>
    if includes storeMessages err.Error then some err
    else
      let msg := mapIndex dbMessages err.Error
      let msg := if msg = "" then ErrUnknown else msg
      some (.dbError err msg)

/-! ## model.go -/

structure User where
  Id : String
  AuthId : String
  Email : String
  FirstName : String
  LastName : String
deriving DecidableEq, Repr

structure Tenant where
  Id : String
  Name : String
  OwnerId : String
deriving DecidableEq, Repr

structure Joinrequest where
  Id : String
  TenantId : String
  UserId : NullString
  AnonEmail : NullString
  IsAccepted : NullBool
  IsFromUser : NullBool
  CreatedAt : Time
  ExpiresAt : NullTime
deriving DecidableEq, Repr

structure Member where
  Id : String
  TenantId : String
  UserId : String
  Alias : NullString
  IsAdmin : Bool
  IsInactive : Bool
deriving DecidableEq, Repr

/-- The zero value of `dbr.NullString`. -/
def NullString.zero : NullString := ⟨"", false⟩

/-- The zero value of `dbr.NullBool`. -/
def NullBool.zero : NullBool := ⟨false, false⟩

/-- The zero value of `dbr.NullTime`. -/
def NullTime.zero : NullTime := ⟨0, false⟩

/-- The value `&User{}`. -/
def User.zero : User := ⟨"", "", "", "", ""⟩

/-- The value `&Tenant{}`. -/
def Tenant.zero : Tenant := ⟨"", "", ""⟩

/-- The value `&Joinrequest{}`. -/
def Joinrequest.zero : Joinrequest :=
  ⟨"", "", NullString.zero, NullString.zero, NullBool.zero, NullBool.zero, 0, NullTime.zero⟩

/-- The value `&Member{}`. -/
def Member.zero : Member := ⟨"", "", "", NullString.zero, false, false⟩

/-- The method `(*Joinrequest).comparable` of `model.go`: a copy that keeps
`Id`, `TenantId`, `AnonEmail`, `IsAccepted`, `IsFromUser` and `ExpiresAt` and
leaves `UserId` and `CreatedAt` at their zero values. -/
def Joinrequest.comparable (j : Joinrequest) : Joinrequest :=
  { Id := j.Id
    TenantId := j.TenantId
    UserId := NullString.zero
    AnonEmail := j.AnonEmail
    IsAccepted := j.IsAccepted
    IsFromUser := j.IsFromUser
    CreatedAt := 0
    ExpiresAt := j.ExpiresAt }

/-- A value passed as `interface{}`: one of the four record types. -/
inductive Resource where
  | user (u : User)
  | tenant (t : Tenant)
  | joinrequest (j : Joinrequest)
  | member (m : Member)
deriving DecidableEq, Repr

/-! ## Values crossing the SQL boundary -/

/-- A Go value bound to a statement (`set.Val`, a record field). -/
inductive GoVal where
  | string (s : String)
  | bool (b : Bool)
  | time (t : Time)
  | nullString (n : NullString)
  | nullBool (n : NullBool)
  | nullTime (n : NullTime)
deriving DecidableEq, Repr

/-- A value stored in a column. -/
inductive SqlVal where
  | null
  | text (s : String)
  | bool (b : Bool)
  | timestamp (t : Time)
deriving DecidableEq, Repr

/-- What the driver stores for a bound Go value (`driver.Valuer`): a `Null*`
value that is not valid is stored as `NULL`. -/
def GoVal.toSql : GoVal → SqlVal
  | .string s => .text s
  | .bool b => .bool b
  | .time t => .timestamp t
  | .nullString n => if n.valid then .text n.str else .null
  | .nullBool n => if n.valid then .bool n.bool else .null
  | .nullTime n => if n.valid then .timestamp n.time else .null

/-- A stored row: the value of every column, `NULL` where nothing was
written. -/
abbrev Row := String → SqlVal

/-- The value a record carries for a column, by the `db:"..."` tags of
`model.go`. -/
def Resource.column : Resource → String → Option GoVal
  | .user u, c =>
    if c = "id" then some (.string u.Id)
    else if c = "auth_id" then some (.string u.AuthId)
    else if c = "email" then some (.string u.Email)
    else if c = "first_name" then some (.string u.FirstName)
    else if c = "last_name" then some (.string u.LastName)
    else none
  | .tenant t, c =>
    if c = "id" then some (.string t.Id)
    else if c = "name" then some (.string t.Name)
    else if c = "owner_id" then some (.string t.OwnerId)
    else none
  | .joinrequest j, c =>
    if c = "id" then some (.string j.Id)
    else if c = "tenant_id" then some (.string j.TenantId)
    else if c = "user_id" then some (.nullString j.UserId)
    else if c = "anon_email" then some (.nullString j.AnonEmail)
    else if c = "is_accepted" then some (.nullBool j.IsAccepted)
    else if c = "is_from_user" then some (.nullBool j.IsFromUser)
    else if c = "created_at" then some (.time j.CreatedAt)
    else if c = "expires_at" then some (.nullTime j.ExpiresAt)
    else none
  | .member m, c =>
    if c = "id" then some (.string m.Id)
    else if c = "tenant_id" then some (.string m.TenantId)
    else if c = "user_id" then some (.string m.UserId)
    else if c = "alias" then some (.nullString m.Alias)
    else if c = "is_admin" then some (.bool m.IsAdmin)
    else if c = "is_inactive" then some (.bool m.IsInactive)
    else none

/-- The error `database/sql` reports when a column cannot be scanned into
its destination field. -/
def scanError (col : String) : GoError :=
  .backend ("sql: Scan error on column \"" ++ col ++ "\": unsupported Scan")

/-- Scanning a column into a `string` field: `NULL` is refused. -/
def scanString (col : String) : SqlVal → Except GoError String
  | .text s => .ok s
  | _ => .error (scanError col)

/-- Scanning a column into a `bool` field: `NULL` is refused. -/
def scanBool (col : String) : SqlVal → Except GoError Bool
  | .bool b => .ok b
  | _ => .error (scanError col)

/-- Scanning a column into a `time.Time` field: `NULL` is refused. -/
def scanTime (col : String) : SqlVal → Except GoError Time
  | .timestamp t => .ok t
  | _ => .error (scanError col)

/-- The method `NullString.Scan`: `NULL` gives the zero value. -/
def scanNullString (col : String) : SqlVal → Except GoError NullString
  | .null => .ok NullString.zero
  | .text s => .ok ⟨s, true⟩
  | _ => .error (scanError col)

/-- The method `NullBool.Scan`. -/
def scanNullBool (col : String) : SqlVal → Except GoError NullBool
  | .null => .ok NullBool.zero
  | .bool b => .ok ⟨b, true⟩
  | _ => .error (scanError col)

/-- The method `NullTime.Scan`. -/
def scanNullTime (col : String) : SqlVal → Except GoError NullTime
  | .null => .ok NullTime.zero
  | .timestamp t => .ok ⟨t, true⟩
  | _ => .error (scanError col)

/-- Loading a row into a destination record (`dbr` fills the fields from the
columns their `db:"..."` tags name); the destination keeps its dynamic
type. -/
def Resource.scan (row : Row) : Resource → Except GoError Resource
  | .user _ => do
    let id ← scanString "id" (row "id")
    let authId ← scanString "auth_id" (row "auth_id")
    let email ← scanString "email" (row "email")
    let firstName ← scanString "first_name" (row "first_name")
    let lastName ← scanString "last_name" (row "last_name")
    pure (.user ⟨id, authId, email, firstName, lastName⟩)
  | .tenant _ => do
    let id ← scanString "id" (row "id")
    let name ← scanString "name" (row "name")
    let ownerId ← scanString "owner_id" (row "owner_id")
    pure (.tenant ⟨id, name, ownerId⟩)
  | .joinrequest _ => do
    let id ← scanString "id" (row "id")
    let tenantId ← scanString "tenant_id" (row "tenant_id")
    let userId ← scanNullString "user_id" (row "user_id")
    let anonEmail ← scanNullString "anon_email" (row "anon_email")
    let isAccepted ← scanNullBool "is_accepted" (row "is_accepted")
    let isFromUser ← scanNullBool "is_from_user" (row "is_from_user")
    let createdAt ← scanTime "created_at" (row "created_at")
    let expiresAt ← scanNullTime "expires_at" (row "expires_at")
    pure (.joinrequest ⟨id, tenantId, userId, anonEmail, isAccepted, isFromUser, createdAt, expiresAt⟩)
  | .member _ => do
    let id ← scanString "id" (row "id")
    let tenantId ← scanString "tenant_id" (row "tenant_id")
    let userId ← scanString "user_id" (row "user_id")
    let nick ← scanNullString "alias" (row "alias")
    let isAdmin ← scanBool "is_admin" (row "is_admin")
    let isInactive ← scanBool "is_inactive" (row "is_inactive")
    pure (.member ⟨id, tenantId, userId, nick, isAdmin, isInactive⟩)

/-! ## The validator (`validator.v9`) -/

/-- The format checkers of the validation library, which the repository
consumes and does not implement. -/
structure Validate where
  isUUID : String → Bool
  isEmail : String → Bool

/-- The validation tags that `model.go` uses. -/
inductive Tag where
  | uuid
  | email
  | required
deriving DecidableEq, Repr

def Tag.name : Tag → String
  | .uuid => "uuid"
  | .email => "email"
  | .required => "required"

/-- Running one tag on a string field; `required` asks for a value other
than the zero value `""`. -/
def Validate.check (v : Validate) : Tag → String → Bool
  | .uuid, val => v.isUUID val
  | .email, val => v.isEmail val
  | .required, val => decide (val ≠ "")

/-- A string field that carries a `validate:"..."` tag, with its value. -/
structure FieldRule where
  field : String
  tags : List Tag
  value : String
deriving Repr

def Resource.structName : Resource → String
  | .user _ => "User"
  | .tenant _ => "Tenant"
  | .joinrequest _ => "Joinrequest"
  | .member _ => "Member"

/-- The fields of a record that the validator checks, read off the struct
tags of `model.go`.  A field is checked when it has a `validate:"..."` tag and
is of string kind: `FirstName`, `LastName`, `Name`, `CreatedAt` and the flags
have no such tag (their `required` sits in the `json` tag), and for the
struct-typed `UserId` and `AnonEmail` of `Joinrequest` the library descends
into the `dbr.NullString` struct instead of running the tag. -/
def Resource.rules : Resource → List FieldRule
  | .user u =>
    [ ⟨"Id", [.uuid, .required], u.Id⟩,
      ⟨"AuthId", [.uuid, .required], u.AuthId⟩,
      ⟨"Email", [.email, .required], u.Email⟩ ]
  | .tenant t =>
    [ ⟨"Id", [.uuid, .required], t.Id⟩,
      ⟨"OwnerId", [.uuid, .required], t.OwnerId⟩ ]
  | .joinrequest j =>
    [ ⟨"Id", [.uuid, .required], j.Id⟩,
      ⟨"TenantId", [.uuid, .required], j.TenantId⟩ ]
  | .member m =>
    [ ⟨"Id", [.uuid, .required], m.Id⟩,
      ⟨"TenantId", [.uuid, .required], m.TenantId⟩,
      ⟨"UserId", [.uuid, .required], m.UserId⟩ ]

/-- The tags of a field run in order; the first one that fails is reported
and ends the field. -/
def Validate.field (v : Validate) (structName : String) (r : FieldRule) : List FieldError :=
  match r.tags.find? (fun t => !v.check t r.value) with
  | some t => [⟨structName, r.field, t.name⟩]
  | none => []

/-- Collecting the field errors of a list of rules. -/
def Validate.run (v : Validate) (structName : String) : List FieldRule → List FieldError
  | [] => []
  | r :: rest => v.field structName r ++ v.run structName rest

/-- The method `Validate.Struct`: `nil` when no field fails. -/
def Validate.Struct (v : Validate) (resource : Resource) : Option GoError :=
  match v.run resource.structName resource.rules with
  | [] => none
  | fes => some (.validation fes)

/-- The method `Validate.StructPartial`: only the named fields are
checked. -/
def Validate.StructPartial (v : Validate) (resource : Resource) (fields : List String) :
    Option GoError :=
  match v.run resource.structName (resource.rules.filter (fun r => fields.contains r.field)) with
  | [] => none
  | fes => some (.validation fes)

/-! ## The SQL session (`dbr.Session`) -/

/-- A Go `map[string]interface{}`: an association list with distinct keys. -/
abbrev SetMap := List (String × GoVal)

/-- The assignment `m[k] = v` on a Go map. -/
def mapAssign : SetMap → String → GoVal → SetMap
  | [], k, v => [(k, v)]
  | (k0, v0) :: rest, k, v =>
    if k0 = k then (k, v) :: rest else (k0, v0) :: mapAssign rest k v

/-- Reading a Go map with the two-valued form `v, ok := m[k]`. -/
def mapLookup : SetMap → String → Option GoVal
  | [], _ => none
  | (k0, v0) :: rest, k => if k0 = k then some v0 else mapLookup rest k

/-- A statement handed to the backend.  The statements are modelled by what
they name (table, columns, values, id), not by their SQL text, so the
quoting of table names by `quotes` is left out. -/
inductive Stmt where
  | insert (table : String) (columns : List String) (record : Resource)
  | update (table : String) (setMap : SetMap) (id : String)
  | delete (table : String) (id : String)
  | select (table : String) (id : String)
deriving DecidableEq, Repr

/-- The session: the rows of every table, the statements the backend refuses
(connectivity faults, constraint violations: `fault st = some e` makes `st`
fail with `e`), and the log of the statements issued so far. -/
structure Session where
  tables : String → List Row
  fault : Stmt → Option GoError
  log : List Stmt

/-- The value `sql.Result` of an executed statement. -/
structure Result where
  rowsAffected : Nat
deriving DecidableEq, Repr

/-- The method `RowsAffected`; the PostgreSQL driver never fails here. -/
def Result.RowsAffected (r : Result) : Nat × Option GoError := (r.rowsAffected, none)

/-- The condition `id = ?` on a row. -/
def Row.hasId (row : Row) (id : String) : Bool := decide (row "id" = .text id)

/-- The row an insert writes: the listed columns take the record's values,
every other column is `NULL`. -/
def insertRow (columns : List String) (record : Resource) : Row :=
  fun c =>
    if columns.contains c then
      match record.column c with
      | some v => v.toSql
      | none => .null
    else .null

/-- A row after the assignments of an update: the columns of the map are
overwritten, the others keep their value. -/
def assignRow (setMap : SetMap) (row : Row) : Row :=
  fun c =>
    match mapLookup setMap c with
    | some v => v.toSql
    | none => row c

/-- The tables after an executed statement. -/
def applyStmt (tables : String → List Row) : Stmt → String → List Row
  | .insert table columns record => fun t =>
    if t = table then tables t ++ [insertRow columns record] else tables t
  | .update table setMap id => fun t =>
    if t = table then
      (tables t).map (fun row => if row.hasId id then assignRow setMap row else row)
    else tables t
  | .delete table id => fun t =>
    if t = table then (tables t).filter (fun row => !row.hasId id) else tables t
  | .select _ _ => tables

/-- The number of rows a statement affects. -/
def affected (tables : String → List Row) : Stmt → Nat
  | .insert _ _ _ => 1
  | .update table _ id => ((tables table).filter (fun row => row.hasId id)).length
  | .delete table id => ((tables table).filter (fun row => row.hasId id)).length
  | .select _ _ => 0

/-- The method `Exec` of an insert, update or delete statement: the
statement is logged; when the backend refuses it the tables stay as they are
and its error is returned. -/
def Session.Exec (db : Session) (st : Stmt) : Session × Except GoError Result :=
  let db := { db with log := db.log ++ [st] }
  match db.fault st with
  | some e => (db, .error e)
  | none => ({ db with tables := applyStmt db.tables st }, .ok ⟨affected db.tables st⟩)

/-- The method `Load` of `Select("*").From(table).Where("id = ?", id)` with a
single record as destination: the first matching row is scanned into the
destination and the count is 1; with no matching row the destination is left
alone and the count is 0. -/
def Session.Load (db : Session) (table : String) (id : String) (resource : Resource) :
    Session × Resource × Nat × Option GoError :=
  let st := Stmt.select table id
  let db := { db with log := db.log ++ [st] }
  match db.fault st with
  | some e => (db, resource, 0, some e)
  | none =>
    match (db.tables table).find? (fun row => row.hasId id) with
    | none => (db, resource, 0, none)
    | some row =>
      match resource.scan row with
      | .ok loaded => (db, loaded, 1, none)
      | .error e => (db, resource, 0, some e)

/-! ## storeutil.go -/

/-- The struct `Store` of `store.go`. -/
structure Store where
  db : Session
  validator : Validate

/-- The struct `set` of `storeutil.go`. -/
structure set where
  Field : String
  Col : String
  Val : GoVal
deriving DecidableEq, Repr

/-- The function `makeSetMap` of `storeutil.go`. -/
def makeSetMap (fields : List String) (sets : List set) : SetMap :=
  sets.foldl (fun setMap st => if includes fields st.Field then mapAssign setMap st.Col st.Val else setMap) []

/-- The method `validatePartial` of `storeutil.go`. -/
def Store.validatePartial (s : Store) (resource : Resource) (fields : List String) :
    Option GoError :=
  if fields.length = 0 then some (.errorString ErrEmptyFieldMask)
  else s.validator.StructPartial resource fields

/-- The method `validate` of `storeutil.go`. -/
def Store.validate (s : Store) (resource : Resource) : Option GoError :=
  s.validator.Struct resource

/-- The method `create` of `storeutil.go`. -/
def Store.create (s : Store) (table : String) (record : Resource) (columns : List String) :
    Store × Option GoError :=
  match s.db.Exec (.insert table columns record) with
  | (db, .error err) => ({ s with db := db }, some err)
  | (db, .ok _) => ({ s with db := db }, none)

/-- The method `update` of `storeutil.go`. -/
def Store.update (s : Store) (table : String) (id : String) (fields : List String)
    (updateSets : List set) : Store × Option GoError :=
  let setMap := makeSetMap fields updateSets
  if setMap.length = 0 then (s, some (.errorString "update setMap contains zero fields"))
  else
    match s.db.Exec (.update table setMap id) with
    | (db, .error err) => ({ s with db := db }, some err)
    | (db, .ok result) =>
      match result.RowsAffected with
      | (_, some err) => ({ s with db := db }, some err)
      | (count, none) =>
        if count = 0 then ({ s with db := db }, some (.errorString ErrResourceDNE))
        else ({ s with db := db }, none)

/-- The method `getById` of `storeutil.go`. -/
def Store.getById (s : Store) (table : String) (id : String) (resource : Resource) :
    Store × Option Resource × Nat × Option GoError :=
  match s.db.Load table id resource with
  | (db, _, _, some err) => ({ s with db := db }, none, 0, some err)
  | (db, loaded, count, none) => ({ s with db := db }, some loaded, count, none)

/-- The method `delete` of `storeutil.go`. -/
def Store.delete (s : Store) (table : String) (id : String) : Store × Option GoError :=
  match s.db.Exec (.delete table id) with
  | (db, .error err) => ({ s with db := db }, some err)
  | (db, .ok result) =>
    match result.RowsAffected with
    | (_, some err) => ({ s with db := db }, some err)
    | (count, none) =>
      if count = 0 then ({ s with db := db }, some (.errorString ErrResourceDNE))
      else ({ s with db := db }, none)

/-! ## store.go

`uuidNew` is the string `uuid.New().String()` produces and `now` the instant
`time.Now()` returns.  The Go methods write the new `Id` (and `CreatedAt`)
into the caller's struct through the pointer; the model returns the record
instead. -/

/-- The method `CreateUser`. -/
def Store.CreateUser (s : Store) (uuidNew : String) (u : User) :
    Store × Option User × Option GoError :=
  let u := { u with Id := uuidNew }
  match s.validate (.user u) with
  | some err => (s, none, some err)
  | none =>
    let columns := ["id", "auth_id", "email", "first_name", "last_name"]
    match s.create "user" (.user u) columns with
    | (s, some err) => (s, none, NewDbError (some err))
    | (s, none) => (s, some u, none)

/-- The method `UpdateUser`. -/
def Store.UpdateUser (s : Store) (id : String) (u : User) (fields : List String) :
    Store × Option GoError :=
  match s.validatePartial (.user u) fields with
  | some err => (s, some err)
  | none =>
    match s.update "user" id fields
      [ ⟨"AuthId", "auth_id", .string u.AuthId⟩,
        ⟨"Email", "email", .string u.Email⟩,
        ⟨"FirstName", "first_name", .string u.FirstName⟩,
        ⟨"LastName", "last_name", .string u.LastName⟩ ] with
    | (s, err) => (s, NewDbError err)

/-- The method `GetUser`.  The type assertion `retrieved.(*User)` cannot fail,
since `Load` keeps the dynamic type of its destination; the last branch
stands for it. -/
def Store.GetUser (s : Store) (id : String) : Store × Option User × Option GoError :=
  let u := User.zero
  match s.getById "user" id (.user u) with
  | (s, _, _, some err) => (s, none, NewDbError (some err))
  | (s, retrieved, count, none) =>
    if count = 0 then (s, none, none)
    else
      match retrieved with
      | some (.user u) => (s, some u, none)
      | _ => (s, none, none)

/-- The method `DeleteUser`. -/
def Store.DeleteUser (s : Store) (id : String) : Store × Option GoError :=
  match s.delete "user" id with
  | (s, err) => (s, NewDbError err)

/-- The method `CreateTenant`. -/
def Store.CreateTenant (s : Store) (uuidNew : String) (t : Tenant) :
    Store × Option Tenant × Option GoError :=
  let t := { t with Id := uuidNew }
  match s.validate (.tenant t) with
  | some err => (s, none, some err)
  | none =>
    let columns := ["id", "name", "owner_id"]
    match s.create "tenant" (.tenant t) columns with
    | (s, some err) => (s, none, NewDbError (some err))
    | (s, none) => (s, some t, none)

/-- The method `UpdateTenant`. -/
def Store.UpdateTenant (s : Store) (id : String) (t : Tenant) (fields : List String) :
    Store × Option GoError :=
  match s.validatePartial (.tenant t) fields with
  | some err => (s, some err)
  | none =>
    match s.update "tenant" id fields
      [ ⟨"Name", "name", .string t.Name⟩,
        ⟨"OwnerId", "owner_id", .string t.OwnerId⟩ ] with
    | (s, err) => (s, NewDbError err)

/-- The method `GetTenant`. -/
def Store.GetTenant (s : Store) (id : String) : Store × Option Tenant × Option GoError :=
  let t := Tenant.zero
  match s.getById "tenant" id (.tenant t) with
  | (s, _, _, some err) => (s, none, NewDbError (some err))
  | (s, retrieved, count, none) =>
    if count = 0 then (s, none, none)
    else
      match retrieved with
      | some (.tenant t) => (s, some t, none)
      | _ => (s, none, none)

/-- The method `DeleteTenant`. -/
def Store.DeleteTenant (s : Store) (id : String) : Store × Option GoError :=
  match s.delete "tenant" id with
  | (s, err) => (s, NewDbError err)

/-- The method `CreateJoinrequest`. -/
def Store.CreateJoinrequest (s : Store) (uuidNew : String) (now : Time) (jr : Joinrequest) :
    Store × Option Joinrequest × Option GoError :=
  let jr := { jr with Id := uuidNew }
  let jr := { jr with CreatedAt := now }
  match s.validate (.joinrequest jr) with
  | some err => (s, none, some err)
  | none =>
    let columns :=
      [ "id",
        "tenant_id",
        "user_id",
        "anon_email",
        "is_from_user",
        "created_at",
        "expires_at" ]
    match s.create "joinrequest" (.joinrequest jr) columns with
    | (s, some err) => (s, none, NewDbError (some err))
    | (s, none) => (s, some jr, none)

/-- The method `UpdateJoinrequest`. -/
def Store.UpdateJoinrequest (s : Store) (id : String) (jr : Joinrequest)
    (fields : List String) : Store × Option GoError :=
  match s.validatePartial (.joinrequest jr) fields with
  | some err => (s, some err)
  | none =>
    match s.update "joinrequest" id fields
      [ ⟨"TenantId", "tenant_id", .string jr.TenantId⟩,
        ⟨"UserId", "user_id", .nullString jr.UserId⟩,
        ⟨"AnonEmail", "anon_email", .nullString jr.AnonEmail⟩,
        ⟨"IsAccepted", "is_accepted", .nullBool jr.IsAccepted⟩,
        ⟨"IsFromUser", "is_from_user", .nullBool jr.IsFromUser⟩,
        ⟨"ExpiresAt", "expires_at", .nullTime jr.ExpiresAt⟩ ] with
    | (s, err) => (s, NewDbError err)

/-- The method `GetJoinrequest`. -/
def Store.GetJoinrequest (s : Store) (id : String) :
    Store × Option Joinrequest × Option GoError :=
  let jr := Joinrequest.zero
  match s.getById "joinrequest" id (.joinrequest jr) with
  | (s, _, _, some err) => (s, none, NewDbError (some err))
  | (s, retrieved, count, none) =>
    if count = 0 then (s, none, none)
    else
      match retrieved with
      | some (.joinrequest jr) => (s, some jr, none)
      | _ => (s, none, none)

/-- The method `DeleteJoinrequest`. -/
def Store.DeleteJoinrequest (s : Store) (id : String) : Store × Option GoError :=
  match s.delete "joinrequest" id with
  | (s, err) => (s, NewDbError err)

/-- The method `CreateMember`. -/
def Store.CreateMember (s : Store) (uuidNew : String) (m : Member) :
    Store × Option Member × Option GoError :=
  let m := { m with Id := uuidNew }
  match s.validate (.member m) with
  | some err => (s, none, some err)
  | none =>
    let columns :=
      [ "id",
        "tenant_id",
        "user_id",
        "alias",
        "is_admin",
        "is_inactive" ]
    match s.create "member" (.member m) columns with
    | (s, some err) => (s, none, NewDbError (some err))
    | (s, none) => (s, some m, none)

/-- The method `UpdateMember`. -/
def Store.UpdateMember (s : Store) (id : String) (m : Member) (fields : List String) :
    Store × Option GoError :=
  match s.validatePartial (.member m) fields with
  | some err => (s, some err)
  | none =>
    match s.update "member" id fields
      [ ⟨"TenantId", "tenant_id", .string m.TenantId⟩,
        ⟨"UserId", "user_id", .string m.UserId⟩,
        ⟨"Alias", "alias", .nullString m.Alias⟩,
        ⟨"IsAdmin", "is_admin", .bool m.IsAdmin⟩,
        ⟨"IsInactive", "is_inactive", .bool m.IsInactive⟩ ] with
    | (s, err) => (s, NewDbError err)

/-- The method `GetMember`. -/
def Store.GetMember (s : Store) (id : String) : Store × Option Member × Option GoError :=
  let m := Member.zero
  match s.getById "member" id (.member m) with
  | (s, _, _, some err) => (s, none, NewDbError (some err))
  | (s, retrieved, count, none) =>
    if count = 0 then (s, none, none)
    else
      match retrieved with
      | some (.member m) => (s, some m, none)
      | _ => (s, none, none)

/-- The method `DeleteMember`. -/
def Store.DeleteMember (s : Store) (id : String) : Store × Option GoError :=
  match s.delete "member" id with
  | (s, err) => (s, NewDbError err)

/-! ## Sample data

A store with two users, one tenant, one join request and one member, and a
validator instance to run the operations on. -/

/-- A lower-case hexadecimal digit. -/
def isHexLower (c : Char) : Bool :=
  c = '0' || c = '1' || c = '2' || c = '3' || c = '4' || c = '5' || c = '6' || c = '7'
    || c = '8' || c = '9' || c = 'a' || c = 'b' || c = 'c' || c = 'd' || c = 'e' || c = 'f'

/-- A run of exactly `n` hexadecimal digits followed by `rest`. -/
def hexRun : Nat → List Char → Option (List Char)
  | 0, cs => some cs
  | _ + 1, [] => none
  | n + 1, c :: cs => if isHexLower c then hexRun n cs else none

/-- The pattern of the library's `uuid` tag: groups of 8, 4, 4, 4 and 12
lower-case hexadecimal digits separated by dashes. -/
def sampleIsUUID (s : String) : Bool :=
  match hexRun 8 s.data with
  | some ('-' :: r1) =>
    match hexRun 4 r1 with
    | some ('-' :: r2) =>
      match hexRun 4 r2 with
      | some ('-' :: r3) =>
        match hexRun 4 r3 with
        | some ('-' :: r4) =>
          match hexRun 12 r4 with
          | some [] => true
          | _ => false
        | _ => false
      | _ => false
    | _ => false
  | _ => false

/-- A stand-in for the library's `email` tag: some text, an at sign, some
text. -/
def sampleIsEmail (s : String) : Bool :=
  match s.data.span (fun c => c != '@') with
  | (_ :: _, '@' :: _ :: _) => true
  | _ => false

def sampleValidate : Validate := ⟨sampleIsUUID, sampleIsEmail⟩

def sampleId0 : String := "00000000-0000-0000-0000-000000000000"

def sampleId1 : String := "00000000-0000-0000-0000-000000000001"

def sampleId2 : String := "00000000-0000-0000-0000-000000000002"

/-- An identifier that no sample row carries. -/
def sampleIdAbsent : String := "00000000-0000-0000-7777-000000000001"

def sampleUser0 : User := ⟨sampleId0, sampleId0, "a@a.a", "firstName0", "lastName0"⟩

def sampleUser1 : User := ⟨sampleId1, sampleId1, "b@b.b", "firstName1", "lastName1"⟩

def sampleTenant0 : Tenant := ⟨sampleId0, "name0", sampleId0⟩

def sampleJoinrequest0 : Joinrequest :=
  ⟨sampleId0, sampleId0, NullString.zero, NullString.zero, NullBool.zero, NullBool.zero, 1000,
    NullTime.zero⟩

def sampleMember0 : Member := ⟨sampleId0, sampleId0, sampleId0, NullString.zero, true, false⟩

/-- The stored row of a record: every column its struct declares. -/
def Resource.row (r : Resource) : Row :=
  fun c =>
    match r.column c with
    | some v => v.toSql
    | none => .null

/-- The sample tables. -/
def sampleTables : String → List Row := fun t =>
  if t = "user" then [(Resource.user sampleUser0).row, (Resource.user sampleUser1).row]
  else if t = "tenant" then [(Resource.tenant sampleTenant0).row]
  else if t = "joinrequest" then [(Resource.joinrequest sampleJoinrequest0).row]
  else if t = "member" then [(Resource.member sampleMember0).row]
  else []

/-- The sample store: a backend that refuses nothing and an empty log. -/
def sampleStore : Store := ⟨⟨sampleTables, fun _ => none, []⟩, sampleValidate⟩

/-- The sample store over a backend that refuses every statement. -/
def sampleStoreDown : Store :=
  ⟨⟨sampleTables, fun _ => some (.backend "pq: connection refused"), []⟩, sampleValidate⟩

/-! ## Theorems -/

/-! ### Maps and field masks -/

theorem includes_iff (l : List String) (v : String) : includes l v = true ↔ v ∈ l := by
  induction l with
  | nil => simp [includes]
  | cons a rest ih =>
    by_cases h : a = v
    · simp [includes, h]
    · have h2 : ¬ v = a := fun e => h e.symm
      simp [includes, h, h2, ih]

theorem mapLookup_mapAssign (m : SetMap) (k c : String) (v : GoVal) :
    mapLookup (mapAssign m k v) c = if k = c then some v else mapLookup m c := by
  induction m with
  | nil => simp [mapAssign, mapLookup]
  | cons p rest ih =>
    obtain ⟨k0, v0⟩ := p
    by_cases h0 : k0 = k
    · subst h0
      by_cases hc : k0 = c <;> simp [mapAssign, mapLookup, hc]
    · by_cases hc : k0 = c
      · subst hc
        have : ¬ k = k0 := fun e => h0 e.symm
        simp [mapAssign, mapLookup, h0, this]
      · simp [mapAssign, mapLookup, h0, hc, ih]

theorem mapAssign_ne_nil (m : SetMap) (k : String) (v : GoVal) : mapAssign m k v ≠ [] := by
  cases m with
  | nil => simp [mapAssign]
  | cons p rest =>
    obtain ⟨k0, v0⟩ := p
    by_cases h0 : k0 = k <;> simp [mapAssign, h0]

/-- The fold of `makeSetMap` from any starting map, read at one column. -/
theorem mapLookup_foldl (fields : List String) (sets : List set) (acc : SetMap) (c : String) :
    mapLookup (sets.foldl (fun setMap st =>
        if includes fields st.Field then mapAssign setMap st.Col st.Val else setMap) acc) c
      = match sets.reverse.find? (fun st => includes fields st.Field && decide (st.Col = c)) with
        | some st => some st.Val
        | none => mapLookup acc c := by
  induction sets generalizing acc with
  | nil => simp
  | cons st rest ih =>
    rw [List.foldl_cons, ih, List.reverse_cons, List.find?_append]
    cases hrest : rest.reverse.find? (fun st => includes fields st.Field && decide (st.Col = c)) with
    | some found => simp
    | none =>
      by_cases hin : includes fields st.Field = true
      · by_cases hc : st.Col = c
        · simp [hin, hc, mapLookup_mapAssign]
        · simp [hin, hc, mapLookup_mapAssign]
      · simp [hin]

theorem mapLookup_makeSetMap (fields : List String) (sets : List set) (c : String) :
    mapLookup (makeSetMap fields sets) c
      = (sets.reverse.find? (fun st => includes fields st.Field && decide (st.Col = c))).map
          set.Val := by
  unfold makeSetMap
  rw [mapLookup_foldl]
  cases sets.reverse.find? (fun st => includes fields st.Field && decide (st.Col = c)) <;>
    simp [mapLookup]

theorem foldl_eq_nil_iff (fields : List String) (sets : List set) (acc : SetMap) :
    sets.foldl (fun setMap st =>
        if includes fields st.Field then mapAssign setMap st.Col st.Val else setMap) acc = []
      ↔ acc = [] ∧ ∀ st ∈ sets, includes fields st.Field = false := by
  induction sets generalizing acc with
  | nil => simp
  | cons st rest ih =>
    rw [List.foldl_cons, ih]
    by_cases hin : includes fields st.Field = true
    · simp [hin, mapAssign_ne_nil]
    · simp [hin]

theorem makeSetMap_eq_nil_iff (fields : List String) (sets : List set) :
    makeSetMap fields sets = [] ↔ ∀ st ∈ sets, includes fields st.Field = false := by
  unfold makeSetMap
  rw [foldl_eq_nil_iff]
  simp

/-! ### Rows, loads and updates -/

theorem hasId_assignRow (setMap : SetMap) (row : Row) (id : String)
    (hid : mapLookup setMap "id" = none) : (assignRow setMap row).hasId id = row.hasId id := by
  simp [Row.hasId, assignRow, hid]

theorem find_update (rows : List Row) (setMap : SetMap) (id : String)
    (hid : mapLookup setMap "id" = none) :
    (rows.map (fun row => if row.hasId id then assignRow setMap row else row)).find?
        (fun row => row.hasId id)
      = (rows.find? (fun row => row.hasId id)).map (assignRow setMap) := by
  induction rows with
  | nil => simp
  | cons row rest ih =>
    by_cases h : row.hasId id = true
    · simp [List.find?, h, hasId_assignRow setMap row id hid]
    · simp only [List.map_cons, List.find?]
      simp [h, ih]

theorem scan_user_ok (row : Row) (z u : User) :
    Resource.scan row (.user z) = .ok (.user u)
      ↔ row "id" = .text u.Id ∧ row "auth_id" = .text u.AuthId ∧ row "email" = .text u.Email
        ∧ row "first_name" = .text u.FirstName ∧ row "last_name" = .text u.LastName := by
  obtain ⟨a, b, c, d, e⟩ := u
  simp only [Resource.scan]
  generalize row "id" = v1
  generalize row "auth_id" = v2
  generalize row "email" = v3
  generalize row "first_name" = v4
  generalize row "last_name" = v5
  cases v1 <;> simp [scanString, bind, Except.bind, pure, Except.pure]
  cases v2 <;> simp [scanString, bind, Except.bind, pure, Except.pure]
  cases v3 <;> simp [scanString, bind, Except.bind, pure, Except.pure]
  cases v4 <;> simp [scanString, bind, Except.bind, pure, Except.pure]
  cases v5 <;> simp [scanString, bind, Except.bind, pure, Except.pure]

theorem scan_user_shape (row : Row) (z : User) (r : Resource)
    (h : Resource.scan row (.user z) = .ok r) : ∃ u, r = .user u := by
  simp only [Resource.scan] at h
  generalize row "id" = v1 at h
  generalize row "auth_id" = v2 at h
  generalize row "email" = v3 at h
  generalize row "first_name" = v4 at h
  generalize row "last_name" = v5 at h
  cases v1 <;> simp [scanString, bind, Except.bind, pure, Except.pure] at h
  cases v2 <;> simp [scanString, bind, Except.bind, pure, Except.pure] at h
  cases v3 <;> simp [scanString, bind, Except.bind, pure, Except.pure] at h
  cases v4 <;> simp [scanString, bind, Except.bind, pure, Except.pure] at h
  cases v5 <;> simp [scanString, bind, Except.bind, pure, Except.pure] at h
  exact ⟨_, h.symm⟩

theorem GetUser_eq_some (s : Store) (id : String) (u : User) :
    (s.GetUser id).2 = (some u, none)
      ↔ s.db.fault (.select "user" id) = none
        ∧ ∃ row, (s.db.tables "user").find? (fun row => row.hasId id) = some row
          ∧ Resource.scan row (.user User.zero) = .ok (.user u) := by
  unfold Store.GetUser Store.getById Session.Load
  simp only []
  cases hf : s.db.fault (.select "user" id) with
  | some e => simp
  | none =>
    cases hrow : (s.db.tables "user").find? (fun row => row.hasId id) with
    | none => simp
    | some row =>
      cases hscan : Resource.scan row (.user User.zero) with
      | error e => simp [hscan]
      | ok r =>
        obtain ⟨u0, rfl⟩ := scan_user_shape row _ r hscan
        simp [hscan]

theorem update_healthy (s : Store) (table id : String) (fields : List String) (sets : List set)
    (hf : s.db.fault (.update table (makeSetMap fields sets) id) = none)
    (hne : makeSetMap fields sets ≠ []) :
    s.update table id fields sets
      = (⟨⟨applyStmt s.db.tables (.update table (makeSetMap fields sets) id), s.db.fault,
            s.db.log ++ [.update table (makeSetMap fields sets) id]⟩, s.validator⟩,
          if affected s.db.tables (.update table (makeSetMap fields sets) id) = 0
          then some (.errorString ErrResourceDNE) else none) := by
  have hlen : (makeSetMap fields sets).length ≠ 0 := by
    simpa [List.length_eq_zero] using hne
  unfold Store.update Session.Exec
  simp only [hlen, if_false, hf, Result.RowsAffected]
  split <;> simp_all

theorem affected_pos_of_find (rows : List Row) (id : String) (row : Row)
    (h : rows.find? (fun row => row.hasId id) = some row) :
    (rows.filter (fun row => row.hasId id)).length ≠ 0 := by
  have hmem := List.mem_of_find?_eq_some h
  have hp := List.find?_some h
  intro h0
  have : row ∈ rows.filter (fun row => row.hasId id) := List.mem_filter.2 ⟨hmem, hp⟩
  rw [List.length_eq_zero] at h0
  rw [h0] at this
  exact absurd this (List.not_mem_nil _)


theorem filter_hasId_of_missing (rows : List Row) (id : String)
    (hmiss : ∀ row ∈ rows, row.hasId id = false) :
    rows.filter (fun row => row.hasId id) = [] := by
  rw [List.filter_eq_nil_iff]
  intro row hrow
  simp [hmiss row hrow]

theorem filter_hasId_of_present (rows : List Row) (id : String)
    (hex : ∃ row ∈ rows, row.hasId id = true) :
    (rows.filter (fun row => row.hasId id)).length ≠ 0 := by
  obtain ⟨row, hrow, hp⟩ := hex
  intro h0
  have hmem : row ∈ rows.filter (fun row => row.hasId id) := List.mem_filter.2 ⟨hrow, hp⟩
  rw [List.length_eq_zero] at h0
  rw [h0] at hmem
  exact absurd hmem (List.not_mem_nil _)

theorem find_hasId_of_missing (rows : List Row) (id : String)
    (hmiss : ∀ row ∈ rows, row.hasId id = false) :
    rows.find? (fun row => row.hasId id) = none := by
  rw [List.find?_eq_none]
  intro row hrow
  simp [hmiss row hrow]

theorem NewDbError_resourceDNE :
    NewDbError (some (.errorString ErrResourceDNE)) = some (.errorString ErrResourceDNE) := by
  decide

theorem update_missing (s : Store) (table id : String) (fields : List String) (sets : List set)
    (hf : s.db.fault (.update table (makeSetMap fields sets) id) = none)
    (hne : makeSetMap fields sets ≠ [])
    (hmiss : ∀ row ∈ s.db.tables table, row.hasId id = false) :
    (s.update table id fields sets).2 = some (.errorString ErrResourceDNE) := by
  rw [update_healthy s table id fields sets hf hne]
  simp [affected, filter_hasId_of_missing _ _ hmiss]

theorem makeSetMap_ne_nil (fields : List String) (sets : List set) (st : set) (hst : st ∈ sets)
    (hin : st.Field ∈ fields) : makeSetMap fields sets ≠ [] := by
  rw [Ne, makeSetMap_eq_nil_iff]
  intro hall
  have := hall st hst
  rw [(includes_iff fields st.Field).2 hin] at this
  exact Bool.noConfusion this

theorem delete_healthy (s : Store) (table id : String)
    (hf : s.db.fault (.delete table id) = none) :
    s.delete table id
      = (⟨⟨applyStmt s.db.tables (.delete table id), s.db.fault,
            s.db.log ++ [.delete table id]⟩, s.validator⟩,
          if affected s.db.tables (.delete table id) = 0
          then some (.errorString ErrResourceDNE) else none) := by
  unfold Store.delete Session.Exec
  simp only [hf, Result.RowsAffected]
  split <;> simp_all

theorem delete_missing (s : Store) (table id : String)
    (hf : s.db.fault (.delete table id) = none)
    (hmiss : ∀ row ∈ s.db.tables table, row.hasId id = false) :
    (s.delete table id).2 = some (.errorString ErrResourceDNE) := by
  rw [delete_healthy s table id hf]
  simp [affected, filter_hasId_of_missing _ _ hmiss]

theorem delete_present (s : Store) (table id : String)
    (hf : s.db.fault (.delete table id) = none)
    (hex : ∃ row ∈ s.db.tables table, row.hasId id = true) :
    (s.delete table id).2 = none := by
  rw [delete_healthy s table id hf]
  simp only [affected]
  simp [filter_hasId_of_present _ _ hex]


theorem Load_missing (db : Session) (table id : String) (resource : Resource)
    (hf : db.fault (.select table id) = none)
    (hmiss : ∀ row ∈ db.tables table, row.hasId id = false) :
    db.Load table id resource
      = (⟨db.tables, db.fault, db.log ++ [.select table id]⟩, resource, 0, none) := by
  unfold Session.Load
  simp only [hf, find_hasId_of_missing _ _ hmiss]

theorem getById_of_loaded (s : Store) (table id : String) (resource : Resource)
    (h : (s.db.Load table id resource).2.2.2 = none) :
    s.getById table id resource
      = (⟨(s.db.Load table id resource).1, s.validator⟩,
          some (s.db.Load table id resource).2.1, (s.db.Load table id resource).2.2.1, none) := by
  unfold Store.getById
  rcases hL : s.db.Load table id resource with ⟨db, loaded, count, err⟩
  rw [hL] at h
  simp only at h
  subst h
  rfl


theorem create_healthy (s : Store) (table : String) (record : Resource) (columns : List String)
    (hf : s.db.fault (.insert table columns record) = none) :
    s.create table record columns
      = (⟨⟨applyStmt s.db.tables (.insert table columns record), s.db.fault,
            s.db.log ++ [.insert table columns record]⟩, s.validator⟩, none) := by
  unfold Store.create Session.Exec
  simp only [hf]

theorem validate_user_Id_required (s : Store) (u : User) (h : s.validate (.user u) = none) :
    u.Id ≠ "" := by
  intro hid
  unfold Store.validate Validate.Struct at h
  cases hu : s.validator.isUUID "" <;>
    simp [Resource.rules, Validate.run, Validate.field, Validate.check, List.find?, hid, hu] at h

theorem find_append_new (rows : List Row) (row : Row) (id : String)
    (hmiss : ∀ r ∈ rows, r.hasId id = false) (hrow : row.hasId id = true) :
    (rows ++ [row]).find? (fun r => r.hasId id) = some row := by
  rw [List.find?_append, find_hasId_of_missing _ _ hmiss]
  simp [List.find?, hrow]


theorem mapLookup_eq_none_iff (m : SetMap) (c : String) :
    mapLookup m c = none ↔ c ∉ m.map Prod.fst := by
  induction m with
  | nil => simp [mapLookup]
  | cons p rest ih =>
    obtain ⟨k0, v0⟩ := p
    by_cases h : k0 = c
    · simp [mapLookup, h]
    · have h2 : ¬ c = k0 := fun e => h e.symm
      simp [mapLookup, h, h2, ih]

theorem makeSetMap_no_column (fields : List String) (sets : List set) (c : String)
    (hcols : ∀ st ∈ sets, st.Col ≠ c) : mapLookup (makeSetMap fields sets) c = none := by
  rw [mapLookup_makeSetMap, Option.map_eq_none', List.find?_eq_none]
  intro st hst
  simp [hcols st (List.mem_reverse.1 hst)]

theorem map_id_update (rows : List Row) (setMap : SetMap) (id : String)
    (hid : mapLookup setMap "id" = none) :
    (rows.map (fun row => if row.hasId id then assignRow setMap row else row)).map
        (fun row => row "id") = rows.map (fun row => row "id") := by
  rw [List.map_map]
  apply List.map_congr_left
  intro row _
  by_cases h : row.hasId id = true
  · simp [h, assignRow, hid]
  · simp [h]

/-- What `update` leaves behind when none of its sets writes the column
`id`: the log is untouched or one update longer, that update's map has no key
`id`, and every table holds the same ids in the same order. -/
theorem update_keeps_ids (s : Store) (table id : String) (fields : List String)
    (sets : List set) (hcols : ∀ st ∈ sets, st.Col ≠ "id") :
    ((s.update table id fields sets).1.db.log = s.db.log
        ∨ ∃ setMap, (s.update table id fields sets).1.db.log
              = s.db.log ++ [.update table setMap id]
            ∧ "id" ∉ setMap.map Prod.fst)
      ∧ ∀ t, ((s.update table id fields sets).1.db.tables t).map (fun row => row "id")
          = (s.db.tables t).map (fun row => row "id") := by
  have hid := makeSetMap_no_column fields sets "id" hcols
  have hkey := (mapLookup_eq_none_iff _ _).1 hid
  unfold Store.update Session.Exec
  by_cases hlen : (makeSetMap fields sets).length = 0
  · simp [hlen]
  · simp only [hlen, if_false]
    cases hf : s.db.fault (.update table (makeSetMap fields sets) id) with
    | some e => exact ⟨Or.inr ⟨_, rfl, hkey⟩, fun _ => rfl⟩
    | none =>
      have htab : ∀ t, (applyStmt s.db.tables (.update table (makeSetMap fields sets) id) t).map
          (fun row => row "id") = (s.db.tables t).map (fun row => row "id") := by
        intro t
        by_cases ht : t = table
        · simp only [applyStmt, ht, if_true]
          exact map_id_update _ _ _ hid
        · simp only [applyStmt, ht, if_false]
      simp only [Result.RowsAffected]
      split_ifs
      · exact ⟨Or.inr ⟨_, rfl, hkey⟩, htab⟩
      · exact ⟨Or.inr ⟨_, rfl, hkey⟩, htab⟩

theorem makeSetMap_congr (fields fields2 : List String) (sets : List set)
    (h : ∀ x, x ∈ fields ↔ x ∈ fields2) : makeSetMap fields sets = makeSetMap fields2 sets := by
  have hinc : ∀ x, includes fields x = includes fields2 x := by
    intro x
    rw [Bool.eq_iff_iff, includes_iff, includes_iff]
    exact h x
  unfold makeSetMap
  simp only [hinc]

theorem mem_keys_makeSetMap (fields : List String) (sets : List set) (c : String) :
    c ∈ (makeSetMap fields sets).map Prod.fst
      ↔ ∃ st ∈ sets, st.Field ∈ fields ∧ st.Col = c := by
  rw [← not_iff_not, ← mapLookup_eq_none_iff, mapLookup_makeSetMap, Option.map_eq_none',
    List.find?_eq_none]
  constructor
  · rintro h ⟨st, hst, hf, hc⟩
    exact h st (List.mem_reverse.2 hst) (by simp [(includes_iff fields st.Field).2 hf, hc])
  · intro h st hst hp
    simp only [Bool.and_eq_true, decide_eq_true_eq] at hp
    exact h ⟨st, List.mem_reverse.1 hst, (includes_iff fields st.Field).1 hp.1, hp.2⟩

theorem mapLookup_makeSetMap_of_mem (fields : List String) (sets : List set)
    (hd : (sets.map set.Col).Nodup) (st : set) (hst : st ∈ sets) (hf : st.Field ∈ fields) :
    mapLookup (makeSetMap fields sets) st.Col = some st.Val := by
  rw [mapLookup_makeSetMap]
  cases hfind : sets.reverse.find?
      (fun st2 => includes fields st2.Field && decide (st2.Col = st.Col)) with
  | none =>
    rw [List.find?_eq_none] at hfind
    exact absurd (by simp [(includes_iff fields st.Field).2 hf])
      (hfind st (List.mem_reverse.2 hst))
  | some found =>
    have hp := List.find?_some hfind
    have hmem := List.mem_reverse.1 (List.mem_of_find?_eq_some hfind)
    simp only [Bool.and_eq_true, decide_eq_true_eq] at hp
    have heq : found = st := List.inj_on_of_nodup_map hd hmem hst hp.2
    simp [heq]


/-! ### The claims -/

/-- C1: with an empty field mask, `UpdateUser`, `UpdateTenant`,
`UpdateJoinrequest` and `UpdateMember` return an error whose message is
exactly "field mask is empty", log no statement and leave every table as it
was. -/
theorem update_empty_mask_rejected (s : Store) (id : String) (u : User) (t : Tenant)
    (jr : Joinrequest) (m : Member) :
    ((s.UpdateUser id u []).2.map GoError.Error = some "field mask is empty"
      ∧ (s.UpdateUser id u []).1.db.log = s.db.log
      ∧ (s.UpdateUser id u []).1.db.tables = s.db.tables)
    ∧ ((s.UpdateTenant id t []).2.map GoError.Error = some "field mask is empty"
      ∧ (s.UpdateTenant id t []).1.db.log = s.db.log
      ∧ (s.UpdateTenant id t []).1.db.tables = s.db.tables)
    ∧ ((s.UpdateJoinrequest id jr []).2.map GoError.Error = some "field mask is empty"
      ∧ (s.UpdateJoinrequest id jr []).1.db.log = s.db.log
      ∧ (s.UpdateJoinrequest id jr []).1.db.tables = s.db.tables)
    ∧ ((s.UpdateMember id m []).2.map GoError.Error = some "field mask is empty"
      ∧ (s.UpdateMember id m []).1.db.log = s.db.log
      ∧ (s.UpdateMember id m []).1.db.tables = s.db.tables) := by
  simp [Store.UpdateUser, Store.UpdateTenant, Store.UpdateJoinrequest, Store.UpdateMember,
    Store.validatePartial, GoError.Error, ErrEmptyFieldMask]

theorem userSetMap_columns (fields : List String) (u : User) :
    mapLookup (makeSetMap fields
      [ ⟨"AuthId", "auth_id", .string u.AuthId⟩,
        ⟨"Email", "email", .string u.Email⟩,
        ⟨"FirstName", "first_name", .string u.FirstName⟩,
        ⟨"LastName", "last_name", .string u.LastName⟩ ]) "id" = none
    ∧ mapLookup (makeSetMap fields
      [ ⟨"AuthId", "auth_id", .string u.AuthId⟩,
        ⟨"Email", "email", .string u.Email⟩,
        ⟨"FirstName", "first_name", .string u.FirstName⟩,
        ⟨"LastName", "last_name", .string u.LastName⟩ ]) "auth_id"
        = (if "AuthId" ∈ fields then some (.string u.AuthId) else none)
    ∧ mapLookup (makeSetMap fields
      [ ⟨"AuthId", "auth_id", .string u.AuthId⟩,
        ⟨"Email", "email", .string u.Email⟩,
        ⟨"FirstName", "first_name", .string u.FirstName⟩,
        ⟨"LastName", "last_name", .string u.LastName⟩ ]) "email"
        = (if "Email" ∈ fields then some (.string u.Email) else none)
    ∧ mapLookup (makeSetMap fields
      [ ⟨"AuthId", "auth_id", .string u.AuthId⟩,
        ⟨"Email", "email", .string u.Email⟩,
        ⟨"FirstName", "first_name", .string u.FirstName⟩,
        ⟨"LastName", "last_name", .string u.LastName⟩ ]) "first_name"
        = (if "FirstName" ∈ fields then some (.string u.FirstName) else none)
    ∧ mapLookup (makeSetMap fields
      [ ⟨"AuthId", "auth_id", .string u.AuthId⟩,
        ⟨"Email", "email", .string u.Email⟩,
        ⟨"FirstName", "first_name", .string u.FirstName⟩,
        ⟨"LastName", "last_name", .string u.LastName⟩ ]) "last_name"
        = (if "LastName" ∈ fields then some (.string u.LastName) else none) := by
  simp only [mapLookup_makeSetMap, ← includes_iff]
  refine ⟨?_, ?_, ?_, ?_, ?_⟩
  · simp [List.find?]
  · cases h : includes fields "AuthId" <;> simp [List.find?, h]
  · cases h : includes fields "Email" <;> simp [List.find?, h]
  · cases h : includes fields "FirstName" <;> simp [List.find?, h]
  · cases h : includes fields "LastName" <;> simp [List.find?, h]

/-- C2: on a backend that executes the statements without error, for a stored
user with id `X` (read back as `old`), a candidate `u` and a mask that passes
partial validation (so it is not empty) and names at least one of `AuthId`,
`Email`, `FirstName`, `LastName`: `UpdateUser` returns nil, and `GetUser X`
afterwards returns the record whose mask-named fields are those of `u` and
whose other fields are those of `old`; `Id` is that of `old` whether or not
the mask names it. -/
theorem UpdateUser_writes_masked_fields (s : Store) (X : String) (old u : User)
    (fields : List String)
    (hok : ∀ st, s.db.fault st = none)
    (hstored : (s.GetUser X).2 = (some old, none))
    (hvalid : s.validatePartial (.user u) fields = none)
    (hnames : "AuthId" ∈ fields ∨ "Email" ∈ fields ∨ "FirstName" ∈ fields ∨ "LastName" ∈ fields) :
    (s.UpdateUser X u fields).2 = none
      ∧ ((s.UpdateUser X u fields).1.GetUser X).2
          = (some
              { Id := old.Id
                AuthId := if "AuthId" ∈ fields then u.AuthId else old.AuthId
                Email := if "Email" ∈ fields then u.Email else old.Email
                FirstName := if "FirstName" ∈ fields then u.FirstName else old.FirstName
                LastName := if "LastName" ∈ fields then u.LastName else old.LastName },
             none) := by
  obtain ⟨_, row, hrow, hscan⟩ := (GetUser_eq_some s X old).1 hstored
  have hne : makeSetMap fields
      [ ⟨"AuthId", "auth_id", .string u.AuthId⟩,
        ⟨"Email", "email", .string u.Email⟩,
        ⟨"FirstName", "first_name", .string u.FirstName⟩,
        ⟨"LastName", "last_name", .string u.LastName⟩ ] ≠ [] := by
    rw [Ne, makeSetMap_eq_nil_iff]
    intro hall
    rcases hnames with h | h | h | h
    · have := hall ⟨"AuthId", "auth_id", .string u.AuthId⟩ (by simp)
      rw [(includes_iff fields "AuthId").2 h] at this
      exact Bool.noConfusion this
    · have := hall ⟨"Email", "email", .string u.Email⟩ (by simp)
      rw [(includes_iff fields "Email").2 h] at this
      exact Bool.noConfusion this
    · have := hall ⟨"FirstName", "first_name", .string u.FirstName⟩ (by simp)
      rw [(includes_iff fields "FirstName").2 h] at this
      exact Bool.noConfusion this
    · have := hall ⟨"LastName", "last_name", .string u.LastName⟩ (by simp)
      rw [(includes_iff fields "LastName").2 h] at this
      exact Bool.noConfusion this
  have hupd := update_healthy s "user" X fields _ (hok _) hne
  have hcount := affected_pos_of_find _ X row hrow
  obtain ⟨c0, c1, c2, c3, c4⟩ := userSetMap_columns fields u
  have hrun : s.UpdateUser X u fields
      = (⟨⟨applyStmt s.db.tables (.update "user" (makeSetMap fields
            [ ⟨"AuthId", "auth_id", .string u.AuthId⟩,
              ⟨"Email", "email", .string u.Email⟩,
              ⟨"FirstName", "first_name", .string u.FirstName⟩,
              ⟨"LastName", "last_name", .string u.LastName⟩ ]) X), s.db.fault,
            s.db.log ++ [.update "user" (makeSetMap fields
            [ ⟨"AuthId", "auth_id", .string u.AuthId⟩,
              ⟨"Email", "email", .string u.Email⟩,
              ⟨"FirstName", "first_name", .string u.FirstName⟩,
              ⟨"LastName", "last_name", .string u.LastName⟩ ]) X]⟩, s.validator⟩, none) := by
    unfold Store.UpdateUser
    rw [hvalid]
    simp only [hupd]
    simp only [affected] at hcount ⊢
    simp [hcount, NewDbError]
  rw [hrun]
  generalize makeSetMap fields
      [ ⟨"AuthId", "auth_id", .string u.AuthId⟩,
        ⟨"Email", "email", .string u.Email⟩,
        ⟨"FirstName", "first_name", .string u.FirstName⟩,
        ⟨"LastName", "last_name", .string u.LastName⟩ ] = sm at c0 c1 c2 c3 c4 ⊢
  refine ⟨rfl, ?_⟩
  rw [GetUser_eq_some]
  refine ⟨hok _, assignRow sm row, ?_, ?_⟩
  · simp only [applyStmt, if_true]
    rw [find_update _ _ _ c0, hrow]
    rfl
  · obtain ⟨h1, h2, h3, h4, h5⟩ := (scan_user_ok row _ old).1 hscan
    rw [scan_user_ok]
    simp only [assignRow, c0, c1, c2, c3, c4]
    refine ⟨h1, ?_, ?_, ?_, ?_⟩
    · split_ifs <;> simp [h2, GoVal.toSql]
    · split_ifs <;> simp [h3, GoVal.toSql]
    · split_ifs <;> simp [h4, GoVal.toSql]
    · split_ifs <;> simp [h5, GoVal.toSql]

/-- The sample store, user 1 and the mask `FirstName`. -/
theorem UpdateUser_writes_masked_fields_witness :
    (∀ st, sampleStore.db.fault st = none)
      ∧ (sampleStore.GetUser sampleId1).2 = (some sampleUser1, none)
      ∧ sampleStore.validatePartial (.user ⟨"", "", "", "abc", ""⟩) ["FirstName"] = none
      ∧ (sampleStore.UpdateUser sampleId1 ⟨"", "", "", "abc", ""⟩ ["FirstName"]).2 = none
      ∧ ((sampleStore.UpdateUser sampleId1 ⟨"", "", "", "abc", ""⟩ ["FirstName"]).1.GetUser
            sampleId1).2
          = (some ⟨sampleId1, sampleId1, "b@b.b", "abc", "lastName1"⟩, none) :=
  ⟨fun _ => rfl, by decide, by decide,
    UpdateUser_writes_masked_fields sampleStore sampleId1 sampleUser1 ⟨"", "", "", "abc", ""⟩
      ["FirstName"] (fun _ => rfl) (by decide) (by decide) (by decide)⟩

/-- C3 (as amended): on a backend that executes the update without error, for
an id that matches no stored row, a candidate record and a mask that passes
partial validation and names at least one field the entity's update assigns,
`UpdateUser`, `UpdateTenant`, `UpdateJoinrequest` and `UpdateMember` return an
error whose message is exactly "resource does not exist" and for which
`errors.Unwrap` returns nil. -/
theorem update_missing_id_not_found (s : Store) (id : String) (fields : List String)
    (u : User) (t : Tenant) (jr : Joinrequest) (m : Member)
    (hok : ∀ st, s.db.fault st = none) :
    ((∀ row ∈ s.db.tables "user", row.hasId id = false) →
      s.validatePartial (.user u) fields = none →
      ("AuthId" ∈ fields ∨ "Email" ∈ fields ∨ "FirstName" ∈ fields ∨ "LastName" ∈ fields) →
        (s.UpdateUser id u fields).2.map GoError.Error = some "resource does not exist"
          ∧ errorsUnwrap (s.UpdateUser id u fields).2 = none)
    ∧ ((∀ row ∈ s.db.tables "tenant", row.hasId id = false) →
      s.validatePartial (.tenant t) fields = none →
      ("Name" ∈ fields ∨ "OwnerId" ∈ fields) →
        (s.UpdateTenant id t fields).2.map GoError.Error = some "resource does not exist"
          ∧ errorsUnwrap (s.UpdateTenant id t fields).2 = none)
    ∧ ((∀ row ∈ s.db.tables "joinrequest", row.hasId id = false) →
      s.validatePartial (.joinrequest jr) fields = none →
      ("TenantId" ∈ fields ∨ "UserId" ∈ fields ∨ "AnonEmail" ∈ fields ∨ "IsAccepted" ∈ fields
        ∨ "IsFromUser" ∈ fields ∨ "ExpiresAt" ∈ fields) →
        (s.UpdateJoinrequest id jr fields).2.map GoError.Error = some "resource does not exist"
          ∧ errorsUnwrap (s.UpdateJoinrequest id jr fields).2 = none)
    ∧ ((∀ row ∈ s.db.tables "member", row.hasId id = false) →
      s.validatePartial (.member m) fields = none →
      ("TenantId" ∈ fields ∨ "UserId" ∈ fields ∨ "Alias" ∈ fields ∨ "IsAdmin" ∈ fields
        ∨ "IsInactive" ∈ fields) →
        (s.UpdateMember id m fields).2.map GoError.Error = some "resource does not exist"
          ∧ errorsUnwrap (s.UpdateMember id m fields).2 = none) := by
  refine ⟨?_, ?_, ?_, ?_⟩
  · intro hmiss hvalid hnames
    have hne : makeSetMap fields
        [ ⟨"AuthId", "auth_id", .string u.AuthId⟩,
          ⟨"Email", "email", .string u.Email⟩,
          ⟨"FirstName", "first_name", .string u.FirstName⟩,
          ⟨"LastName", "last_name", .string u.LastName⟩ ] ≠ [] := by
      rcases hnames with h | h | h | h
      · exact makeSetMap_ne_nil fields _ ⟨"AuthId", "auth_id", .string u.AuthId⟩ (by simp) h
      · exact makeSetMap_ne_nil fields _ ⟨"Email", "email", .string u.Email⟩ (by simp) h
      · exact makeSetMap_ne_nil fields _ ⟨"FirstName", "first_name", .string u.FirstName⟩
          (by simp) h
      · exact makeSetMap_ne_nil fields _ ⟨"LastName", "last_name", .string u.LastName⟩
          (by simp) h
    have hupd := update_missing s "user" id fields _ (hok _) hne hmiss
    unfold Store.UpdateUser
    rw [hvalid]
    simp only [hupd, NewDbError_resourceDNE]
    exact ⟨rfl, rfl⟩
  · intro hmiss hvalid hnames
    have hne : makeSetMap fields
        [ ⟨"Name", "name", .string t.Name⟩,
          ⟨"OwnerId", "owner_id", .string t.OwnerId⟩ ] ≠ [] := by
      rcases hnames with h | h
      · exact makeSetMap_ne_nil fields _ ⟨"Name", "name", .string t.Name⟩ (by simp) h
      · exact makeSetMap_ne_nil fields _ ⟨"OwnerId", "owner_id", .string t.OwnerId⟩ (by simp) h
    have hupd := update_missing s "tenant" id fields _ (hok _) hne hmiss
    unfold Store.UpdateTenant
    rw [hvalid]
    simp only [hupd, NewDbError_resourceDNE]
    exact ⟨rfl, rfl⟩
  · intro hmiss hvalid hnames
    have hne : makeSetMap fields
        [ ⟨"TenantId", "tenant_id", .string jr.TenantId⟩,
          ⟨"UserId", "user_id", .nullString jr.UserId⟩,
          ⟨"AnonEmail", "anon_email", .nullString jr.AnonEmail⟩,
          ⟨"IsAccepted", "is_accepted", .nullBool jr.IsAccepted⟩,
          ⟨"IsFromUser", "is_from_user", .nullBool jr.IsFromUser⟩,
          ⟨"ExpiresAt", "expires_at", .nullTime jr.ExpiresAt⟩ ] ≠ [] := by
      rcases hnames with h | h | h | h | h | h
      · exact makeSetMap_ne_nil fields _ ⟨"TenantId", "tenant_id", .string jr.TenantId⟩
          (by simp) h
      · exact makeSetMap_ne_nil fields _ ⟨"UserId", "user_id", .nullString jr.UserId⟩
          (by simp) h
      · exact makeSetMap_ne_nil fields _ ⟨"AnonEmail", "anon_email", .nullString jr.AnonEmail⟩
          (by simp) h
      · exact makeSetMap_ne_nil fields _ ⟨"IsAccepted", "is_accepted", .nullBool jr.IsAccepted⟩
          (by simp) h
      · exact makeSetMap_ne_nil fields _ ⟨"IsFromUser", "is_from_user", .nullBool jr.IsFromUser⟩
          (by simp) h
      · exact makeSetMap_ne_nil fields _ ⟨"ExpiresAt", "expires_at", .nullTime jr.ExpiresAt⟩
          (by simp) h
    have hupd := update_missing s "joinrequest" id fields _ (hok _) hne hmiss
    unfold Store.UpdateJoinrequest
    rw [hvalid]
    simp only [hupd, NewDbError_resourceDNE]
    exact ⟨rfl, rfl⟩
  · intro hmiss hvalid hnames
    have hne : makeSetMap fields
        [ ⟨"TenantId", "tenant_id", .string m.TenantId⟩,
          ⟨"UserId", "user_id", .string m.UserId⟩,
          ⟨"Alias", "alias", .nullString m.Alias⟩,
          ⟨"IsAdmin", "is_admin", .bool m.IsAdmin⟩,
          ⟨"IsInactive", "is_inactive", .bool m.IsInactive⟩ ] ≠ [] := by
      rcases hnames with h | h | h | h | h
      · exact makeSetMap_ne_nil fields _ ⟨"TenantId", "tenant_id", .string m.TenantId⟩
          (by simp) h
      · exact makeSetMap_ne_nil fields _ ⟨"UserId", "user_id", .string m.UserId⟩ (by simp) h
      · exact makeSetMap_ne_nil fields _ ⟨"Alias", "alias", .nullString m.Alias⟩ (by simp) h
      · exact makeSetMap_ne_nil fields _ ⟨"IsAdmin", "is_admin", .bool m.IsAdmin⟩ (by simp) h
      · exact makeSetMap_ne_nil fields _ ⟨"IsInactive", "is_inactive", .bool m.IsInactive⟩
          (by simp) h
    have hupd := update_missing s "member" id fields _ (hok _) hne hmiss
    unfold Store.UpdateMember
    rw [hvalid]
    simp only [hupd, NewDbError_resourceDNE]
    exact ⟨rfl, rfl⟩

/-- The sample store, an id no row carries and a mask naming one assignable
field of each entity. -/
theorem update_missing_id_not_found_witness :
    ((sampleStore.UpdateUser sampleIdAbsent sampleUser0
          ["FirstName", "Name", "IsAccepted", "IsAdmin"]).2.map GoError.Error
        = some "resource does not exist"
      ∧ errorsUnwrap (sampleStore.UpdateUser sampleIdAbsent sampleUser0
          ["FirstName", "Name", "IsAccepted", "IsAdmin"]).2 = none)
    ∧ ((sampleStore.UpdateTenant sampleIdAbsent sampleTenant0
          ["FirstName", "Name", "IsAccepted", "IsAdmin"]).2.map GoError.Error
        = some "resource does not exist"
      ∧ errorsUnwrap (sampleStore.UpdateTenant sampleIdAbsent sampleTenant0
          ["FirstName", "Name", "IsAccepted", "IsAdmin"]).2 = none)
    ∧ ((sampleStore.UpdateJoinrequest sampleIdAbsent sampleJoinrequest0
          ["FirstName", "Name", "IsAccepted", "IsAdmin"]).2.map GoError.Error
        = some "resource does not exist"
      ∧ errorsUnwrap (sampleStore.UpdateJoinrequest sampleIdAbsent sampleJoinrequest0
          ["FirstName", "Name", "IsAccepted", "IsAdmin"]).2 = none)
    ∧ ((sampleStore.UpdateMember sampleIdAbsent sampleMember0
          ["FirstName", "Name", "IsAccepted", "IsAdmin"]).2.map GoError.Error
        = some "resource does not exist"
      ∧ errorsUnwrap (sampleStore.UpdateMember sampleIdAbsent sampleMember0
          ["FirstName", "Name", "IsAccepted", "IsAdmin"]).2 = none) :=
  have h := update_missing_id_not_found sampleStore sampleIdAbsent
    ["FirstName", "Name", "IsAccepted", "IsAdmin"] sampleUser0 sampleTenant0 sampleJoinrequest0
    sampleMember0 (fun _ => rfl)
  ⟨h.1 (by decide) (by decide) (by decide), h.2.1 (by decide) (by decide) (by decide),
    h.2.2.1 (by decide) (by decide) (by decide), h.2.2.2 (by decide) (by decide) (by decide)⟩

/-- C3 as stated fails: on the sample store (a backend that refuses nothing),
for an id that matches no user row, the non-empty mask `Id` passes partial
validation of a candidate with a well-formed `Id`, yet `UpdateUser` returns
"unspecified database error" wrapping "update setMap contains zero fields". -/
theorem update_missing_id_unassignable_mask :
    (∀ st, sampleStore.db.fault st = none)
      ∧ (∀ row ∈ sampleStore.db.tables "user", row.hasId sampleIdAbsent = false)
      ∧ ["Id"] ≠ ([] : List String)
      ∧ sampleStore.validatePartial (.user ⟨sampleIdAbsent, "", "", "abc", ""⟩) ["Id"] = none
      ∧ (sampleStore.UpdateUser sampleIdAbsent ⟨sampleIdAbsent, "", "", "abc", ""⟩
            ["Id"]).2.map GoError.Error = some "unspecified database error"
      ∧ (sampleStore.UpdateUser sampleIdAbsent ⟨sampleIdAbsent, "", "", "abc", ""⟩
            ["Id"]).2.map GoError.Error ≠ some "resource does not exist"
      ∧ errorsUnwrap (sampleStore.UpdateUser sampleIdAbsent ⟨sampleIdAbsent, "", "", "abc", ""⟩
            ["Id"]).2 = some (.errorString "update setMap contains zero fields") :=
  ⟨fun _ => rfl, by decide, by decide, by decide, by decide, by decide, by decide⟩

/-- C4: when the backend executes the delete without error, `DeleteUser`,
`DeleteTenant`, `DeleteJoinrequest` and `DeleteMember` return an error whose
message is exactly "resource does not exist" and whose `errors.Unwrap` is nil
for an id that matches no stored row (zero affected rows), and return nil
when at least one row matches. -/
theorem delete_reports_missing_id (s : Store) (id : String)
    (hok : ∀ st, s.db.fault st = none) :
    (((∀ row ∈ s.db.tables "user", row.hasId id = false) →
        (s.DeleteUser id).2.map GoError.Error = some "resource does not exist"
          ∧ errorsUnwrap (s.DeleteUser id).2 = none)
      ∧ ((∃ row ∈ s.db.tables "user", row.hasId id = true) → (s.DeleteUser id).2 = none))
    ∧ (((∀ row ∈ s.db.tables "tenant", row.hasId id = false) →
        (s.DeleteTenant id).2.map GoError.Error = some "resource does not exist"
          ∧ errorsUnwrap (s.DeleteTenant id).2 = none)
      ∧ ((∃ row ∈ s.db.tables "tenant", row.hasId id = true) → (s.DeleteTenant id).2 = none))
    ∧ (((∀ row ∈ s.db.tables "joinrequest", row.hasId id = false) →
        (s.DeleteJoinrequest id).2.map GoError.Error = some "resource does not exist"
          ∧ errorsUnwrap (s.DeleteJoinrequest id).2 = none)
      ∧ ((∃ row ∈ s.db.tables "joinrequest", row.hasId id = true) →
        (s.DeleteJoinrequest id).2 = none))
    ∧ (((∀ row ∈ s.db.tables "member", row.hasId id = false) →
        (s.DeleteMember id).2.map GoError.Error = some "resource does not exist"
          ∧ errorsUnwrap (s.DeleteMember id).2 = none)
      ∧ ((∃ row ∈ s.db.tables "member", row.hasId id = true) → (s.DeleteMember id).2 = none)) := by
  refine ⟨⟨?_, ?_⟩, ⟨?_, ?_⟩, ⟨?_, ?_⟩, ⟨?_, ?_⟩⟩
  · intro hmiss
    have h := delete_missing s "user" id (hok _) hmiss
    simp only [Store.DeleteUser, h, NewDbError_resourceDNE]
    exact ⟨rfl, rfl⟩
  · intro hex
    have h := delete_present s "user" id (hok _) hex
    simp only [Store.DeleteUser, h, NewDbError]
  · intro hmiss
    have h := delete_missing s "tenant" id (hok _) hmiss
    simp only [Store.DeleteTenant, h, NewDbError_resourceDNE]
    exact ⟨rfl, rfl⟩
  · intro hex
    have h := delete_present s "tenant" id (hok _) hex
    simp only [Store.DeleteTenant, h, NewDbError]
  · intro hmiss
    have h := delete_missing s "joinrequest" id (hok _) hmiss
    simp only [Store.DeleteJoinrequest, h, NewDbError_resourceDNE]
    exact ⟨rfl, rfl⟩
  · intro hex
    have h := delete_present s "joinrequest" id (hok _) hex
    simp only [Store.DeleteJoinrequest, h, NewDbError]
  · intro hmiss
    have h := delete_missing s "member" id (hok _) hmiss
    simp only [Store.DeleteMember, h, NewDbError_resourceDNE]
    exact ⟨rfl, rfl⟩
  · intro hex
    have h := delete_present s "member" id (hok _) hex
    simp only [Store.DeleteMember, h, NewDbError]

/-- The sample store: an absent id for the first half, the stored id 0 for
the second. -/
theorem delete_reports_missing_id_witness :
    ((sampleStore.DeleteUser sampleIdAbsent).2.map GoError.Error
        = some "resource does not exist"
      ∧ errorsUnwrap (sampleStore.DeleteUser sampleIdAbsent).2 = none)
    ∧ (sampleStore.DeleteUser sampleId0).2 = none
    ∧ (sampleStore.DeleteTenant sampleId0).2 = none
    ∧ (sampleStore.DeleteJoinrequest sampleId0).2 = none
    ∧ (sampleStore.DeleteMember sampleId0).2 = none :=
  ⟨(delete_reports_missing_id sampleStore sampleIdAbsent (fun _ => rfl)).1.1 (by decide),
    (delete_reports_missing_id sampleStore sampleId0 (fun _ => rfl)).1.2 (by decide),
    (delete_reports_missing_id sampleStore sampleId0 (fun _ => rfl)).2.1.2 (by decide),
    (delete_reports_missing_id sampleStore sampleId0 (fun _ => rfl)).2.2.1.2 (by decide),
    (delete_reports_missing_id sampleStore sampleId0 (fun _ => rfl)).2.2.2.2 (by decide)⟩

/-- C5: when the backend select succeeds and no stored row carries the id (a
found-count of zero), `GetUser`, `GetTenant`, `GetJoinrequest` and `GetMember`
return a nil record together with a nil error; and the error they return is
non-nil only when the select's `Load` returned an error. -/
theorem get_missing_id_is_nil_nil (s : Store) (id : String) :
    ((s.db.fault (.select "user" id) = none →
        (∀ row ∈ s.db.tables "user", row.hasId id = false) →
          (s.GetUser id).2 = (none, none))
      ∧ ((s.GetUser id).2.2 ≠ none → (s.db.Load "user" id (.user User.zero)).2.2.2 ≠ none))
    ∧ ((s.db.fault (.select "tenant" id) = none →
        (∀ row ∈ s.db.tables "tenant", row.hasId id = false) →
          (s.GetTenant id).2 = (none, none))
      ∧ ((s.GetTenant id).2.2 ≠ none →
          (s.db.Load "tenant" id (.tenant Tenant.zero)).2.2.2 ≠ none))
    ∧ ((s.db.fault (.select "joinrequest" id) = none →
        (∀ row ∈ s.db.tables "joinrequest", row.hasId id = false) →
          (s.GetJoinrequest id).2 = (none, none))
      ∧ ((s.GetJoinrequest id).2.2 ≠ none →
          (s.db.Load "joinrequest" id (.joinrequest Joinrequest.zero)).2.2.2 ≠ none))
    ∧ ((s.db.fault (.select "member" id) = none →
        (∀ row ∈ s.db.tables "member", row.hasId id = false) →
          (s.GetMember id).2 = (none, none))
      ∧ ((s.GetMember id).2.2 ≠ none →
          (s.db.Load "member" id (.member Member.zero)).2.2.2 ≠ none)) := by
  refine ⟨⟨?_, ?_⟩, ⟨?_, ?_⟩, ⟨?_, ?_⟩, ⟨?_, ?_⟩⟩
  · intro hf hmiss
    have hL := Load_missing s.db "user" id (.user User.zero) hf hmiss
    rw [Store.GetUser, getById_of_loaded s _ _ _ (by rw [hL]), hL]
    rfl
  · intro herr hload
    apply herr
    have h := getById_of_loaded s "user" id (.user User.zero) hload
    rw [Store.GetUser, h]
    simp only []
    split_ifs <;> [rfl; (split <;> rfl)]
  · intro hf hmiss
    have hL := Load_missing s.db "tenant" id (.tenant Tenant.zero) hf hmiss
    rw [Store.GetTenant, getById_of_loaded s _ _ _ (by rw [hL]), hL]
    rfl
  · intro herr hload
    apply herr
    have h := getById_of_loaded s "tenant" id (.tenant Tenant.zero) hload
    rw [Store.GetTenant, h]
    simp only []
    split_ifs <;> [rfl; (split <;> rfl)]
  · intro hf hmiss
    have hL := Load_missing s.db "joinrequest" id (.joinrequest Joinrequest.zero) hf hmiss
    rw [Store.GetJoinrequest, getById_of_loaded s _ _ _ (by rw [hL]), hL]
    rfl
  · intro herr hload
    apply herr
    have h := getById_of_loaded s "joinrequest" id (.joinrequest Joinrequest.zero) hload
    rw [Store.GetJoinrequest, h]
    simp only []
    split_ifs <;> [rfl; (split <;> rfl)]
  · intro hf hmiss
    have hL := Load_missing s.db "member" id (.member Member.zero) hf hmiss
    rw [Store.GetMember, getById_of_loaded s _ _ _ (by rw [hL]), hL]
    rfl
  · intro herr hload
    apply herr
    have h := getById_of_loaded s "member" id (.member Member.zero) hload
    rw [Store.GetMember, h]
    simp only []
    split_ifs <;> [rfl; (split <;> rfl)]

/-- The sample store for an absent id, and the sample store over a backend
that is down for the error half. -/
theorem get_missing_id_is_nil_nil_witness :
    (sampleStore.GetUser sampleIdAbsent).2 = (none, none)
      ∧ (sampleStore.GetTenant sampleIdAbsent).2 = (none, none)
      ∧ (sampleStore.GetJoinrequest sampleIdAbsent).2 = (none, none)
      ∧ (sampleStore.GetMember sampleIdAbsent).2 = (none, none)
      ∧ (sampleStoreDown.db.Load "user" sampleId1 (.user User.zero)).2.2.2 ≠ none :=
  ⟨(get_missing_id_is_nil_nil sampleStore sampleIdAbsent).1.1 rfl (by decide),
    (get_missing_id_is_nil_nil sampleStore sampleIdAbsent).2.1.1 rfl (by decide),
    (get_missing_id_is_nil_nil sampleStore sampleIdAbsent).2.2.1.1 rfl (by decide),
    (get_missing_id_is_nil_nil sampleStore sampleIdAbsent).2.2.2.1 rfl (by decide),
    (get_missing_id_is_nil_nil sampleStoreDown sampleId1).1.2 (by decide)⟩

/-- C6, the code at the failing input: on the sample store a join request
with `IsAccepted` set to true passes full validation and is created, the
record `CreateJoinrequest` returns carries `IsAccepted` true, and
`GetJoinrequest` of the returned id yields a record whose `IsAccepted` is
the null value: the insert's column list has no `is_accepted`. -/
theorem CreateJoinrequest_loses_IsAccepted :
    sampleStore.validate (.joinrequest
        ⟨sampleId2, sampleId0, NullString.zero, NullString.zero, ⟨true, true⟩, NullBool.zero, 5,
          NullTime.zero⟩) = none
      ∧ (sampleStore.CreateJoinrequest sampleId2 5
          ⟨"", sampleId0, NullString.zero, NullString.zero, ⟨true, true⟩, NullBool.zero, 0,
            NullTime.zero⟩).2
        = (some ⟨sampleId2, sampleId0, NullString.zero, NullString.zero, ⟨true, true⟩,
            NullBool.zero, 5, NullTime.zero⟩, none)
      ∧ ((sampleStore.CreateJoinrequest sampleId2 5
          ⟨"", sampleId0, NullString.zero, NullString.zero, ⟨true, true⟩, NullBool.zero, 0,
            NullTime.zero⟩).1.GetJoinrequest sampleId2).2
        = (some ⟨sampleId2, sampleId0, NullString.zero, NullString.zero, ⟨false, false⟩,
            NullBool.zero, 5, NullTime.zero⟩, none) := by
  decide

/-- C8: `NewDbError` returns nil for nil, and returns the very error it was
given when that error's message is "field mask is empty" or "resource does
not exist". -/
theorem NewDbError_passes_allowlisted :
    NewDbError none = none
      ∧ ∀ e : GoError,
          (e.Error = "field mask is empty" ∨ e.Error = "resource does not exist") →
            NewDbError (some e) = some e := by
  refine ⟨rfl, ?_⟩
  intro e h
  rcases h with h | h <;> simp [NewDbError, h, includes, storeMessages, ErrEmptyFieldMask,
    ErrResourceDNE]

/-- The errors `errors.New(ErrResourceDNE)` of `update` and a backend error
that happens to carry the text "field mask is empty". -/
theorem NewDbError_passes_allowlisted_witness :
    NewDbError (some (.errorString "resource does not exist"))
        = some (.errorString "resource does not exist")
      ∧ NewDbError (some (.backend "field mask is empty"))
        = some (.backend "field mask is empty") :=
  ⟨NewDbError_passes_allowlisted.2 _ (Or.inr rfl), NewDbError_passes_allowlisted.2 _ (Or.inl rfl)⟩

/-- C9 as stated fails: an error whose own text is "unspecified database
error" is not on the allow-list, and the wrapping error `NewDbError` returns
for it shows that same text. -/
theorem NewDbError_generic_text_shown :
    (GoError.backend "unspecified database error").Error ≠ "field mask is empty"
      ∧ (GoError.backend "unspecified database error").Error ≠ "resource does not exist"
      ∧ (NewDbError (some (.backend "unspecified database error"))).map GoError.Error
        = some (GoError.backend "unspecified database error").Error := by
  decide

/-- C9 (as amended): for a non-nil error `e` whose message is not on the
allow-list, `NewDbError` returns a wrapping `Error` whose `Unwrap` is `e` and
whose message is the text `dbMessages` holds for `e`'s message when it has an
entry for it and "unspecified database error" otherwise; the message is one
of the fixed safe strings, and it differs from `e`'s text unless that text is
itself "unspecified database error". -/
theorem NewDbError_wraps_other_errors (e : GoError)
    (h1 : e.Error ≠ "field mask is empty") (h2 : e.Error ≠ "resource does not exist") :
    ∃ msg, NewDbError (some e) = some (.dbError e msg)
      ∧ errorsUnwrap (NewDbError (some e)) = some e
      ∧ (NewDbError (some e)).map GoError.Error = some msg
      ∧ (∀ safe, (e.Error, safe) ∈ dbMessages → msg = safe)
      ∧ ((∀ safe, (e.Error, safe) ∉ dbMessages) → msg = "unspecified database error")
      ∧ msg ∈ ["group or user does not exist", "group already linked to user",
          "unspecified database error"]
      ∧ (e.Error ≠ "unspecified database error" → msg ≠ e.Error) := by
  have hnot : includes storeMessages e.Error = false := by
    have a1 : ¬ "field mask is empty" = e.Error := fun h => h1 h.symm
    have a2 : ¬ "resource does not exist" = e.Error := fun h => h2 h.symm
    simp [includes, storeMessages, ErrEmptyFieldMask, ErrResourceDNE, a1, a2]
  have hform : NewDbError (some e)
      = some (.dbError e (if mapIndex dbMessages e.Error = "" then ErrUnknown
          else mapIndex dbMessages e.Error)) := by
    simp [NewDbError, hnot]
  refine ⟨_, hform, by rw [hform]; rfl, by rw [hform]; rfl, ?_⟩
  generalize e.Error = m at h1 h2
  by_cases k1 : m = DbErrGroupOrUserDNE
  · subst k1
    have hM : (if mapIndex dbMessages DbErrGroupOrUserDNE = "" then ErrUnknown
        else mapIndex dbMessages DbErrGroupOrUserDNE) = ErrGroupOrUserDNE := by decide
    rw [hM]
    refine ⟨?_, ?_, by decide, fun _ => by decide⟩
    · intro safe hs
      simp only [dbMessages, List.mem_cons, Prod.mk.injEq, List.mem_singleton,
        List.not_mem_nil, or_false] at hs
      rcases hs with hs | hs | hs
      · exact absurd hs.1 (by decide)
      · exact hs.2.symm
      · exact absurd hs.1 (by decide)
    · intro hall
      exact absurd (by simp [dbMessages]) (hall ErrGroupOrUserDNE)
  · by_cases k2 : m = DbErrGroupUserAlreadyLinked
    · subst k2
      have hM : (if mapIndex dbMessages DbErrGroupUserAlreadyLinked = "" then ErrUnknown
          else mapIndex dbMessages DbErrGroupUserAlreadyLinked)
            = ErrGroupUserAlreadyLinked := by decide
      rw [hM]
      refine ⟨?_, ?_, by decide, fun _ => by decide⟩
      · intro safe hs
        simp only [dbMessages, List.mem_cons, Prod.mk.injEq, List.mem_singleton,
          List.not_mem_nil, or_false] at hs
        rcases hs with hs | hs | hs
        · exact absurd hs.1 (by decide)
        · exact absurd hs.1 (by decide)
        · exact hs.2.symm
      · intro hall
        exact absurd (by simp [dbMessages]) (hall ErrGroupUserAlreadyLinked)
    · have k0 : ¬ ErrResourceDNE = m := fun h => h2 h.symm
      have k1s : ¬ DbErrGroupOrUserDNE = m := fun h => k1 h.symm
      have k2s : ¬ DbErrGroupUserAlreadyLinked = m := fun h => k2 h.symm
      have hidx : mapIndex dbMessages m = "" := by
        simp [mapIndex, dbMessages, k0, k1s, k2s]
      rw [hidx, if_pos rfl]
      refine ⟨?_, fun _ => rfl, by decide, ?_⟩
      · intro safe hs
        simp only [dbMessages, List.mem_cons, Prod.mk.injEq, List.mem_singleton,
          List.not_mem_nil, or_false] at hs
        rcases hs with hs | hs | hs
        · exact absurd hs.1.symm k0
        · exact absurd hs.1 k1
        · exact absurd hs.1 k2
      · intro hne heq
        exact hne heq.symm

/-- A driver error with a text of its own, and the duplicate-key text the
table translates. -/
theorem NewDbError_wraps_other_errors_witness :
    (∃ msg, NewDbError (some (.backend "pq: connection refused"))
        = some (.dbError (.backend "pq: connection refused") msg)
      ∧ msg = "unspecified database error")
    ∧ (∃ msg, NewDbError (some (.backend DbErrGroupUserAlreadyLinked))
        = some (.dbError (.backend DbErrGroupUserAlreadyLinked) msg)
      ∧ msg = "group already linked to user") := by
  refine ⟨?_, ?_⟩
  · obtain ⟨msg, hm, _, _, _, hmiss, _, _⟩ :=
      NewDbError_wraps_other_errors (.backend "pq: connection refused") (by decide) (by decide)
    refine ⟨msg, hm, hmiss ?_⟩
    intro safe hs
    simp only [dbMessages, List.mem_cons, Prod.mk.injEq, List.mem_singleton,
      List.not_mem_nil, or_false] at hs
    rcases hs with hs | hs | hs <;> exact absurd hs.1 (by decide)
  · obtain ⟨msg, hm, _, _, hhit, _, _, _⟩ :=
      NewDbError_wraps_other_errors (.backend DbErrGroupUserAlreadyLinked) (by decide)
        (by decide)
    exact ⟨msg, hm, hhit _ (by decide)⟩

/-- C7: on a backend that executes the statements without error, for a user
record `r` that passes full validation once the fresh identifier is set, and
a fresh identifier that no stored user row carries, `CreateUser` returns a
record with a non-empty `Id` and with `AuthId`, `Email`, `FirstName` and
`LastName` as in `r`, and `GetUser` of that `Id` returns that same record. -/
theorem CreateUser_then_GetUser (s : Store) (uuidNew : String) (r : User)
    (hok : ∀ st, s.db.fault st = none)
    (hvalid : s.validate (.user { r with Id := uuidNew }) = none)
    (hfresh : ∀ row ∈ s.db.tables "user", row.hasId uuidNew = false) :
    ∃ created, (s.CreateUser uuidNew r).2 = (some created, none)
      ∧ created.Id ≠ ""
      ∧ created.AuthId = r.AuthId ∧ created.Email = r.Email
      ∧ created.FirstName = r.FirstName ∧ created.LastName = r.LastName
      ∧ ((s.CreateUser uuidNew r).1.GetUser created.Id).2 = (some created, none) := by
  have hcreate := create_healthy s "user" (.user { r with Id := uuidNew })
    ["id", "auth_id", "email", "first_name", "last_name"] (hok _)
  have hrun : s.CreateUser uuidNew r
      = (⟨⟨applyStmt s.db.tables (.insert "user"
            ["id", "auth_id", "email", "first_name", "last_name"]
            (.user { r with Id := uuidNew })), s.db.fault,
          s.db.log ++ [.insert "user" ["id", "auth_id", "email", "first_name", "last_name"]
            (.user { r with Id := uuidNew })]⟩, s.validator⟩,
          some { r with Id := uuidNew }, none) := by
    unfold Store.CreateUser
    simp only [hvalid, hcreate]
  refine ⟨{ r with Id := uuidNew }, by rw [hrun], validate_user_Id_required s _ hvalid,
    rfl, rfl, rfl, rfl, ?_⟩
  rw [hrun, GetUser_eq_some]
  refine ⟨hok _, insertRow ["id", "auth_id", "email", "first_name", "last_name"]
    (.user { r with Id := uuidNew }), ?_, ?_⟩
  · simp only [applyStmt, if_true]
    apply find_append_new _ _ _ hfresh
    simp [Row.hasId, insertRow, Resource.column, GoVal.toSql]
  · rw [scan_user_ok]
    simp [insertRow, Resource.column, GoVal.toSql]

/-- The record of `TestCreateUser` on the sample store, with a fresh id. -/
theorem CreateUser_then_GetUser_witness :
    ∃ created, (sampleStore.CreateUser sampleId2 ⟨"", sampleId2, "z@z.z", "foo", "bar"⟩).2
          = (some created, none)
      ∧ created.Id ≠ ""
      ∧ created.AuthId = sampleId2 ∧ created.Email = "z@z.z"
      ∧ created.FirstName = "foo" ∧ created.LastName = "bar"
      ∧ ((sampleStore.CreateUser sampleId2 ⟨"", sampleId2, "z@z.z", "foo", "bar"⟩).1.GetUser
            created.Id).2 = (some created, none) :=
  CreateUser_then_GetUser sampleStore sampleId2 ⟨"", sampleId2, "z@z.z", "foo", "bar"⟩
    (fun _ => rfl) (by decide) (by decide)

/-- C10, the code at the failing input: whenever the validator accepts the
fresh id, the auth id and the email, and the backend takes the insert,
`CreateUser` of a record whose `FirstName` and `LastName` are empty returns
the record with a nil error and has issued the insert: `FirstName` and
`LastName` carry no validation tag. -/
theorem CreateUser_accepts_empty_names (s : Store) (uuidNew authId email : String)
    (hf : s.db.fault (.insert "user" ["id", "auth_id", "email", "first_name", "last_name"]
      (.user ⟨uuidNew, authId, email, "", ""⟩)) = none)
    (hid : s.validator.isUUID uuidNew = true) (hid0 : uuidNew ≠ "")
    (hauth : s.validator.isUUID authId = true) (hauth0 : authId ≠ "")
    (hemail : s.validator.isEmail email = true) (hemail0 : email ≠ "") :
    (s.CreateUser uuidNew ⟨"", authId, email, "", ""⟩).2
        = (some ⟨uuidNew, authId, email, "", ""⟩, none)
      ∧ (s.CreateUser uuidNew ⟨"", authId, email, "", ""⟩).1.db.log
        = s.db.log ++ [.insert "user" ["id", "auth_id", "email", "first_name", "last_name"]
            (.user ⟨uuidNew, authId, email, "", ""⟩)] := by
  have hvalid : s.validate (.user ⟨uuidNew, authId, email, "", ""⟩) = none := by
    simp [Store.validate, Validate.Struct, Resource.rules, Validate.run, Validate.field,
      Validate.check, List.find?, hid, hid0, hauth, hauth0, hemail, hemail0]
  have hcreate := create_healthy s "user" (.user ⟨uuidNew, authId, email, "", ""⟩)
    ["id", "auth_id", "email", "first_name", "last_name"] hf
  have hrun : s.CreateUser uuidNew ⟨"", authId, email, "", ""⟩
      = (⟨⟨applyStmt s.db.tables (.insert "user"
            ["id", "auth_id", "email", "first_name", "last_name"]
            (.user ⟨uuidNew, authId, email, "", ""⟩)), s.db.fault,
          s.db.log ++ [.insert "user" ["id", "auth_id", "email", "first_name", "last_name"]
            (.user ⟨uuidNew, authId, email, "", ""⟩)]⟩, s.validator⟩,
          some ⟨uuidNew, authId, email, "", ""⟩, none) := by
    unfold Store.CreateUser
    simp only [hvalid, hcreate]
  rw [hrun]
  exact ⟨rfl, rfl⟩

/-- The sample store and validator with an empty first and last name. -/
theorem CreateUser_accepts_empty_names_witness :
    (sampleStore.CreateUser sampleId2 ⟨"", sampleId2, "z@z.z", "", ""⟩).2
        = (some ⟨sampleId2, sampleId2, "z@z.z", "", ""⟩, none)
      ∧ (sampleStore.CreateUser sampleId2 ⟨"", sampleId2, "z@z.z", "", ""⟩).1.db.log
        = [.insert "user" ["id", "auth_id", "email", "first_name", "last_name"]
            (.user ⟨sampleId2, sampleId2, "z@z.z", "", ""⟩)] :=
  CreateUser_accepts_empty_names sampleStore sampleId2 sampleId2 "z@z.z" rfl (by decide)
    (by decide) (by decide) (by decide) (by decide) (by decide)

/-- C11: for every id, candidate record and field mask (one that names `Id`
or `id` included), `UpdateUser`, `UpdateTenant`, `UpdateJoinrequest` and
`UpdateMember` hand the backend at most one statement, an update whose
assignment map has no key `id`, and every table holds the same ids, row by
row, after the call as before it. -/
theorem update_never_assigns_id (s : Store) (id : String) (fields : List String)
    (u : User) (t : Tenant) (jr : Joinrequest) (m : Member) :
    (((s.UpdateUser id u fields).1.db.log = s.db.log
        ∨ ∃ setMap, (s.UpdateUser id u fields).1.db.log
              = s.db.log ++ [.update "user" setMap id]
            ∧ "id" ∉ setMap.map Prod.fst)
      ∧ ∀ tb, ((s.UpdateUser id u fields).1.db.tables tb).map (fun row => row "id")
          = (s.db.tables tb).map (fun row => row "id"))
    ∧ (((s.UpdateTenant id t fields).1.db.log = s.db.log
        ∨ ∃ setMap, (s.UpdateTenant id t fields).1.db.log
              = s.db.log ++ [.update "tenant" setMap id]
            ∧ "id" ∉ setMap.map Prod.fst)
      ∧ ∀ tb, ((s.UpdateTenant id t fields).1.db.tables tb).map (fun row => row "id")
          = (s.db.tables tb).map (fun row => row "id"))
    ∧ (((s.UpdateJoinrequest id jr fields).1.db.log = s.db.log
        ∨ ∃ setMap, (s.UpdateJoinrequest id jr fields).1.db.log
              = s.db.log ++ [.update "joinrequest" setMap id]
            ∧ "id" ∉ setMap.map Prod.fst)
      ∧ ∀ tb, ((s.UpdateJoinrequest id jr fields).1.db.tables tb).map (fun row => row "id")
          = (s.db.tables tb).map (fun row => row "id"))
    ∧ (((s.UpdateMember id m fields).1.db.log = s.db.log
        ∨ ∃ setMap, (s.UpdateMember id m fields).1.db.log
              = s.db.log ++ [.update "member" setMap id]
            ∧ "id" ∉ setMap.map Prod.fst)
      ∧ ∀ tb, ((s.UpdateMember id m fields).1.db.tables tb).map (fun row => row "id")
          = (s.db.tables tb).map (fun row => row "id")) := by
  refine ⟨?_, ?_, ?_, ?_⟩
  · unfold Store.UpdateUser
    cases s.validatePartial (.user u) fields with
    | some err => exact ⟨Or.inl rfl, fun _ => rfl⟩
    | none =>
      apply update_keeps_ids
      intro st hst
      simp only [List.mem_cons, List.mem_singleton, List.not_mem_nil, or_false] at hst
      rcases hst with rfl | rfl | rfl | rfl <;> simp
  · unfold Store.UpdateTenant
    cases s.validatePartial (.tenant t) fields with
    | some err => exact ⟨Or.inl rfl, fun _ => rfl⟩
    | none =>
      apply update_keeps_ids
      intro st hst
      simp only [List.mem_cons, List.mem_singleton, List.not_mem_nil, or_false] at hst
      rcases hst with rfl | rfl <;> simp
  · unfold Store.UpdateJoinrequest
    cases s.validatePartial (.joinrequest jr) fields with
    | some err => exact ⟨Or.inl rfl, fun _ => rfl⟩
    | none =>
      apply update_keeps_ids
      intro st hst
      simp only [List.mem_cons, List.mem_singleton, List.not_mem_nil, or_false] at hst
      rcases hst with rfl | rfl | rfl | rfl | rfl | rfl <;> simp
  · unfold Store.UpdateMember
    cases s.validatePartial (.member m) fields with
    | some err => exact ⟨Or.inl rfl, fun _ => rfl⟩
    | none =>
      apply update_keeps_ids
      intro st hst
      simp only [List.mem_cons, List.mem_singleton, List.not_mem_nil, or_false] at hst
      rcases hst with rfl | rfl | rfl | rfl | rfl <;> simp

/-- C13 as stated fails: on the sample store `update` with an empty field
list returns the error "update setMap contains zero fields", not "field mask
is empty". -/
theorem update_empty_fields_other_message :
    (sampleStore.update "user" sampleId1 []
        [⟨"FirstName", "first_name", .string "abc"⟩]).2.map GoError.Error
        = some "update setMap contains zero fields"
      ∧ (sampleStore.update "user" sampleId1 []
          [⟨"FirstName", "first_name", .string "abc"⟩]).2.map GoError.Error
        ≠ some "field mask is empty" := by
  decide

/-- C13 (as amended): `update` called with an empty field list fails at once
with an error whose message is "update setMap contains zero fields", logs no
statement and leaves every table as it was. -/
theorem update_empty_fields_rejected (s : Store) (table id : String) (sets : List set) :
    (s.update table id [] sets).2.map GoError.Error
        = some "update setMap contains zero fields"
      ∧ (s.update table id [] sets).1.db.log = s.db.log
      ∧ (s.update table id [] sets).1.db.tables = s.db.tables := by
  have hnil : makeSetMap [] sets = [] := by
    rw [makeSetMap_eq_nil_iff]
    intro st _
    rfl
  simp [Store.update, hnil, GoError.Error]

/-- C12: for every field-name list and every list of sets with pairwise
distinct columns, the keys of `makeSetMap fields sets` are exactly the
columns of the sets whose field occurs in `fields`, each such column maps to
its set's value, a name that matches no set adds nothing, and two lists with
the same names (in any order, any number of times) give the same map. -/
theorem makeSetMap_keys_and_values (fields : List String) (sets : List set)
    (hd : (sets.map set.Col).Nodup) :
    (∀ c, c ∈ (makeSetMap fields sets).map Prod.fst
        ↔ ∃ st ∈ sets, st.Field ∈ fields ∧ st.Col = c)
      ∧ (∀ st ∈ sets, st.Field ∈ fields →
          mapLookup (makeSetMap fields sets) st.Col = some st.Val)
      ∧ (∀ name, (∀ st ∈ sets, st.Field ≠ name) →
          makeSetMap (name :: fields) sets = makeSetMap fields sets)
      ∧ (∀ fields2, (∀ x, x ∈ fields ↔ x ∈ fields2) →
          makeSetMap fields2 sets = makeSetMap fields sets) := by
  refine ⟨mem_keys_makeSetMap fields sets, ?_, ?_, ?_⟩
  · intro st hst hf
    exact mapLookup_makeSetMap_of_mem fields sets hd st hst hf
  · intro name hname
    have hinc : ∀ st ∈ sets, includes (name :: fields) st.Field = includes fields st.Field := by
      intro st hst
      simp [includes, hname st hst |>.symm]
    unfold makeSetMap
    apply List.foldl_ext
    intro acc st hst
    rw [hinc st hst]
  · intro fields2 h
    exact (makeSetMap_congr fields fields2 sets h).symm

/-- The sets of `UpdateUser` for a sample candidate, under a mask that
repeats `FirstName`. -/
theorem makeSetMap_keys_and_values_witness :
    ([ (⟨"AuthId", "auth_id", .string "x"⟩ : set), ⟨"Email", "email", .string "z@z.z"⟩,
        ⟨"FirstName", "first_name", .string "abc"⟩,
        ⟨"LastName", "last_name", .string "def"⟩ ].map set.Col).Nodup
      ∧ ("first_name" ∈ (makeSetMap ["FirstName", "Email", "FirstName"]
            [ ⟨"AuthId", "auth_id", .string "x"⟩, ⟨"Email", "email", .string "z@z.z"⟩,
              ⟨"FirstName", "first_name", .string "abc"⟩,
              ⟨"LastName", "last_name", .string "def"⟩ ]).map Prod.fst)
      ∧ mapLookup (makeSetMap ["FirstName", "Email", "FirstName"]
            [ ⟨"AuthId", "auth_id", .string "x"⟩, ⟨"Email", "email", .string "z@z.z"⟩,
              ⟨"FirstName", "first_name", .string "abc"⟩,
              ⟨"LastName", "last_name", .string "def"⟩ ]) "first_name" = some (.string "abc")
      ∧ makeSetMap ["Nickname", "FirstName", "Email", "FirstName"]
            [ ⟨"AuthId", "auth_id", .string "x"⟩, ⟨"Email", "email", .string "z@z.z"⟩,
              ⟨"FirstName", "first_name", .string "abc"⟩,
              ⟨"LastName", "last_name", .string "def"⟩ ]
          = makeSetMap ["FirstName", "Email", "FirstName"]
            [ ⟨"AuthId", "auth_id", .string "x"⟩, ⟨"Email", "email", .string "z@z.z"⟩,
              ⟨"FirstName", "first_name", .string "abc"⟩,
              ⟨"LastName", "last_name", .string "def"⟩ ]
      ∧ makeSetMap ["Email", "FirstName"]
            [ ⟨"AuthId", "auth_id", .string "x"⟩, ⟨"Email", "email", .string "z@z.z"⟩,
              ⟨"FirstName", "first_name", .string "abc"⟩,
              ⟨"LastName", "last_name", .string "def"⟩ ]
          = makeSetMap ["FirstName", "Email", "FirstName"]
            [ ⟨"AuthId", "auth_id", .string "x"⟩, ⟨"Email", "email", .string "z@z.z"⟩,
              ⟨"FirstName", "first_name", .string "abc"⟩,
              ⟨"LastName", "last_name", .string "def"⟩ ] :=
  have h := makeSetMap_keys_and_values ["FirstName", "Email", "FirstName"]
    [ ⟨"AuthId", "auth_id", .string "x"⟩, ⟨"Email", "email", .string "z@z.z"⟩,
      ⟨"FirstName", "first_name", .string "abc"⟩,
      ⟨"LastName", "last_name", .string "def"⟩ ] (by decide)
  have hsame : ∀ x, x ∈ ["FirstName", "Email", "FirstName"] ↔ x ∈ ["Email", "FirstName"] := by
    intro x
    simp only [List.mem_cons, List.mem_singleton, List.not_mem_nil, or_false]
    tauto
  ⟨by decide,
    (h.1 "first_name").2 ⟨⟨"FirstName", "first_name", .string "abc"⟩, by decide, by decide, rfl⟩,
    h.2.1 ⟨"FirstName", "first_name", .string "abc"⟩ (by decide) (by decide),
    h.2.2.1 "Nickname" (by decide),
    h.2.2.2 ["Email", "FirstName"] hsame⟩

end Xtenancy
